import Mathlib

/-!
# startrfc and ServerMonitorSample: the two demo programs of the RFC SDK

A shallow embedding of `src/nwrfcsdk/demo/startrfc.cpp` (the command-line
client) and `src/nwrfcsdk/demo/ServerMonitorSample.c` (the monitoring server).

* Strings (`SAP_UC const*`) are `Option CStr`: `none` is the null pointer and
  `some s` points at the character units `s` that precede the terminator.
* Every effect of the programs (a line printed, a call into the SDK together
  with its arguments and its result) is appended to a trace of `Event`s, in
  program order.
* The SDK is a record of functions, one per entry point, so every theorem
  quantifies over every behaviour of the library.
* Reading through a null pointer is undefined behaviour; the functions that
  can do so return `Option`, and `none` stands for it.
-/

namespace StartRfc

/-! ## Strings -/

/-- One character unit of the SDK (`SAP_UC`): a `char` or a UTF-16 unit,
depending on how the SDK was built. -/
abbrev SAP_UC := Nat

/-- The contents of a NUL-terminated string: the units before the terminator
(none of which is 0 in a string that comes from memory). -/
abbrev CStr := List SAP_UC

/-- The string literal macro `cU("...")`. -/
def cU (s : String) : CStr := s.toList.map Char.toNat

/-- Modelled from the spec: `strcmpU` is a macro of the SDK header `sapuc.h`,
which is not in the repository; it stands for the C library's `strcmp` on
`SAP_UC` strings (the spec's "straightforward string-handling checks").
Only the sign of the result is specified by C; the end of a string compares
below every unit. -/
def strcmpU : CStr → CStr → Int
  | [], [] => 0
  | [], _ :: _ => -1
  | _ :: _, [] => 1
  | a :: s, b :: t => if a = b then strcmpU s t else if a < b then -1 else 1

/-- Modelled from the spec: `strncmpU` is a macro of the SDK header `sapuc.h`,
which is not in the repository; it stands for the C library's `strncmp`:
the comparison of `strcmpU`, over at most `n` units. -/
def strncmpU : CStr → CStr → Nat → Int
  | _, _, 0 => 0
  | [], [], _ + 1 => 0
  | [], _ :: _, _ + 1 => -1
  | _ :: _, [], _ + 1 => 1
  | a :: s, b :: t, n + 1 =>
    if a = b then strncmpU s t n else if a < b then -1 else 1

/-- Modelled from the spec: `strlenU` is a macro of the SDK header `sapuc.h`,
which is not in the repository; it stands for the C library's `strlen`, the
number of units before the terminator. -/
def strlenU (s : CStr) : Nat := s.length

/-! ## Data model -/

/-- A value of the enumeration `RFC_RC`, by its number. -/
abbrev RFC_RC := Nat

/-- Modelled from the spec: the enumeration `RFC_RC` is declared in the SDK
header `sapnwrfc.h`, which is not in the repository; `RFC_OK` is its first
enumerator and the spec gives exit status 0 to a run without error. -/
def RFC_OK : RFC_RC := 0

/-- An opaque SDK handle, by its address; 0 is the null handle. -/
abbrev RFC_CONNECTION_HANDLE := Nat
/-- An opaque SDK handle, by its address; 0 is the null handle. -/
abbrev RFC_FUNCTION_DESC_HANDLE := Nat
/-- An opaque SDK handle, by its address; 0 is the null handle. -/
abbrev RFC_FUNCTION_HANDLE := Nat

/-- The fields of `RFC_ERROR_INFO` that the client reads. -/
structure RFC_ERROR_INFO where
  code : RFC_RC
  message : CStr
deriving DecidableEq, Repr

/-- One entry of the connection parameter array. -/
structure RFC_CONNECTION_PARAMETER where
  name : CStr
  value : Option CStr
deriving DecidableEq, Repr

/-- The fields of `RFC_PARAMETER_DESC` that `getFunctionDescHandle` sets to
something other than zero: the name and the lengths in characters and bytes
(the type is `RFCTYPE_CHAR`, the direction `RFC_IMPORT`). -/
structure RFC_PARAMETER_DESC where
  name : CStr
  nucLength : Nat
  ucLength : Nat
deriving DecidableEq, Repr

/-- The fields of `RFC_ATTRIBUTES` printed by `showConnAttr`. -/
structure RFC_ATTRIBUTES where
  sysId : CStr
  sysNumber : CStr
  partnerHost : CStr
  host : CStr
  partnerRel : CStr
  kernelRel : CStr
  rel : CStr
  partnerCodepage : CStr
  codepage : CStr
  user : CStr
  client : CStr
  language : CStr
deriving DecidableEq, Repr

/-- The struct `OPTIONS` of `startrfc.h`. -/
structure OPTIONS where
  user : Option CStr
  passwd : Option CStr
  client : Option CStr
  language : Option CStr
  ashost : Option CStr
  sysnr : Option CStr
  dest : Option CStr
  function : Option CStr
  path : Option CStr
  port : Option CStr
  trace : Option CStr
  showSysInfo : Bool
deriving DecidableEq, Repr

/-- The value `OPTIONS options = {}` of `mainU`: every pointer null, the flag
false. -/
def OPTIONS.zero : OPTIONS :=
  { user := none, passwd := none, client := none, language := none,
    ashost := none, sysnr := none, dest := none, function := none,
    path := none, port := none, trace := none, showSysInfo := false }

/-- An argument of `printfU` after the format. -/
inductive PrintArg where
  | str (s : CStr)
  | num (n : Int)
deriving DecidableEq, Repr

/-- One observable effect of the client. The calls whose result the client
inspects carry that result and the error information they leave behind. -/
inductive Event where
  | printfU (format : String) (args : List PrintArg)
  | RfcSetTraceLevel (traceLevel : Nat)
  | RfcOpenConnection (connParams : List RFC_CONNECTION_PARAMETER)
      (result : RFC_CONNECTION_HANDLE) (error : RFC_ERROR_INFO)
  | RfcGetConnectionAttributes (conn : RFC_CONNECTION_HANDLE)
      (rc : RFC_RC) (error : RFC_ERROR_INFO)
  | RfcCreateFunctionDesc (functionName : CStr)
      (result : RFC_FUNCTION_DESC_HANDLE) (error : RFC_ERROR_INFO)
  | RfcAddParameter (funcDesc : RFC_FUNCTION_DESC_HANDLE)
      (par : RFC_PARAMETER_DESC) (rc : RFC_RC) (error : RFC_ERROR_INFO)
  | RfcCreateFunction (funcDesc : RFC_FUNCTION_DESC_HANDLE)
      (result : RFC_FUNCTION_HANDLE) (error : RFC_ERROR_INFO)
  | RfcSetChars (func : RFC_FUNCTION_HANDLE) (name : CStr) (value : CStr)
      (valueLength : Nat) (rc : RFC_RC) (error : RFC_ERROR_INFO)
  | RfcInvoke (conn : RFC_CONNECTION_HANDLE) (func : RFC_FUNCTION_HANDLE)
      (rc : RFC_RC) (error : RFC_ERROR_INFO)
  | RfcCloseConnection (conn : RFC_CONNECTION_HANDLE)
  | RfcDestroyFunction (func : RFC_FUNCTION_HANDLE)
  | RfcDestroyFunctionDesc (funcDesc : RFC_FUNCTION_DESC_HANDLE)
deriving DecidableEq, Repr

/-- The library the client is linked with: what each entry point returns and
the error information it leaves in `*errorInfo`, as a function of the
arguments. None of these is defined in the repository. -/
structure SDK where
  /-- The C library's `atoi` under its SDK name. -/
  atoiU : CStr → Int
  RfcGetVersion : CStr
  /-- The text `showVersion` prints for the compiler, chosen by the
  platform conditionals at build time. -/
  compilerVersion : String × List PrintArg
  RfcGetRcAsString : RFC_RC → CStr
  RfcOpenConnection : List RFC_CONNECTION_PARAMETER → RFC_ERROR_INFO →
    RFC_CONNECTION_HANDLE × RFC_ERROR_INFO
  RfcGetConnectionAttributes : RFC_CONNECTION_HANDLE → RFC_ERROR_INFO →
    RFC_RC × RFC_ATTRIBUTES × RFC_ERROR_INFO
  RfcCreateFunctionDesc : CStr → RFC_ERROR_INFO →
    RFC_FUNCTION_DESC_HANDLE × RFC_ERROR_INFO
  RfcAddParameter : RFC_FUNCTION_DESC_HANDLE → RFC_PARAMETER_DESC →
    RFC_ERROR_INFO → RFC_RC × RFC_ERROR_INFO
  RfcCreateFunction : RFC_FUNCTION_DESC_HANDLE → RFC_ERROR_INFO →
    RFC_FUNCTION_HANDLE × RFC_ERROR_INFO
  RfcSetChars : RFC_FUNCTION_HANDLE → CStr → CStr → Nat → RFC_ERROR_INFO →
    RFC_RC × RFC_ERROR_INFO
  RfcInvoke : RFC_CONNECTION_HANDLE → RFC_FUNCTION_HANDLE → RFC_ERROR_INFO →
    RFC_RC × RFC_ERROR_INFO

/-! ## The client: `startrfc.cpp` -/

/-- The function `showHelp`: the usage text, line by line. -/
def showHelp : List Event :=
  [ .printfU "\nUsage: %s [options]\n" [.str (cU "startrfc")],
    .printfU "Options:\n" [],
    .printfU "  -h <ashost>          SAP application server to connect to\n" [],
    .printfU "  -s <sysnr>           system number of the target SAP system\n" [],
    .printfU "  -u <user>            user\n" [],
    .printfU "  -p <passwd>          password\n" [],
    .printfU "  -c <client>          client \n" [],
    .printfU "  -l <language>        logon language\n" [],
    .printfU "  -D <destination>     destination defined in RFC config file sapnwrfc.ini\n" [],
    .printfU "  -F <function>        function module to be called, only EDI_DATA_INCOMING\n" [],
    .printfU "                       or EDI_STATUS_INCOMING is supported\n" [],
    .printfU "  -E PATHNAME=<path>   path, including file name, to EDI data file or status \n" [],
    .printfU "                       file, with maximum length of 100 charachters\n" [],
    .printfU "  -E PORT=<port name>  port name of the ALE/EDI interface with maximum   \n" [],
    .printfU "                       length of 10 charachters\n" [],
    .printfU "  -t <level>           set global RFC tracelevel 0(off), 1(brief), 2(verbose), 3(detailed) or 4(full)\n" [],
    .printfU "  -help  or -?         display this help page\n" [],
    .printfU "  -v                   display the version of the NWRFC library, the version\n" [],
    .printfU "                       of the compiler used by SAP to build this program and\n" [],
    .printfU "                       the version of startrfc\n" [],
    .printfU "  -i                   connect to the target system and display the system info\n" [] ]

/-- The function `showVersion`. -/
def showVersion (sdk : SDK) : List Event :=
  [ .printfU "NW RFC Library Version: %s\n" [.str sdk.RfcGetVersion],
    .printfU ("Compiler Version:\n" ++ sdk.compilerVersion.1) sdk.compilerVersion.2,
    .printfU "Startrfc Version: 2024-01-20\n" [] ]

/-- The `for` loop of `parseCommand`, on the arguments `argv[i..argc)` that
are still to be read. An option that takes a value reads it with `++i`, so
the loop goes on two places further; when no value is left it prints the
complaint and the loop ends. -/
def parseLoop (sdk : SDK) : List CStr → OPTIONS → OPTIONS × List Event
  | [], options => (options, [])
  | arg :: rest, options =>
    if strcmpU arg (cU "-i") = 0 then
      parseLoop sdk rest { options with showSysInfo := true }
    else if strcmpU arg (cU "-h") = 0 then
      match rest with
      | v :: rest' => parseLoop sdk rest' { options with ashost := some v }
      | [] => (options, [.printfU "Missing parameter after option -h\n" []])
    else if strcmpU arg (cU "-s") = 0 then
      match rest with
      | v :: rest' => parseLoop sdk rest' { options with sysnr := some v }
      | [] => (options, [.printfU "Missing parameter after option -s\n" []])
    else if strcmpU arg (cU "-u") = 0 then
      match rest with
      | v :: rest' => parseLoop sdk rest' { options with user := some v }
      | [] => (options, [.printfU "Missing parameter after option -u\n" []])
    else if strcmpU arg (cU "-p") = 0 then
      match rest with
      | v :: rest' => parseLoop sdk rest' { options with passwd := some v }
      | [] => (options, [.printfU "Missing parameter after option -p\n" []])
    else if strcmpU arg (cU "-c") = 0 then
      match rest with
      | v :: rest' => parseLoop sdk rest' { options with client := some v }
      | [] => (options, [.printfU "Missing parameter after option -c\n" []])
    else if strcmpU arg (cU "-l") = 0 then
      match rest with
      | v :: rest' => parseLoop sdk rest' { options with language := some v }
      | [] => (options, [.printfU "Missing parameter after option -l\n" []])
    else if strcmpU arg (cU "-D") = 0 then
      match rest with
      | v :: rest' => parseLoop sdk rest' { options with dest := some v }
      | [] => (options, [.printfU "Missing parameter after option -D\n" []])
    else if strcmpU arg (cU "-F") = 0 then
      match rest with
      | v :: rest' => parseLoop sdk rest' { options with function := some v }
      | [] => (options, [.printfU "Missing parameter after option -F\n" []])
    else if strcmpU arg (cU "-E") = 0 then
      match rest with
      | param :: rest' =>
        if strncmpU param (cU "PATHNAME=") 9 = 0 then
          parseLoop sdk rest' { options with path := some (param.drop 9) }
        else if strncmpU param (cU "PORT=") 5 = 0 then
          parseLoop sdk rest' { options with port := some (param.drop 5) }
        else
          parseLoop sdk rest' options
      | [] => (options, [.printfU "Missing parameter after option -E\n" []])
    else if strcmpU arg (cU "-t") = 0 then
      match rest with
      | v :: rest' =>
        let traceLevel : Nat := (sdk.atoiU v % 2 ^ 32).toNat
        let r := parseLoop sdk rest' options
        (r.1, .RfcSetTraceLevel traceLevel :: r.2)
      | [] => (options, [.printfU "Missing parameter after option -t\n" []])
    else
      let r := parseLoop sdk rest options
      (r.1, .printfU "Unknown command option %s\n" [.str arg] :: r.2)

/-- The function `parseCommand`: `argv` is the whole argument vector (so
`argc` is its length); the result is the returned flag, the options as the
call leaves them and what it printed or set. -/
def parseCommand (sdk : SDK) (argv : List CStr) (options : OPTIONS) :
    Bool × OPTIONS × List Event :=
  match argv with
  | [] => (false, options, showHelp)
  | [_] => (false, options, showHelp)
  | _ :: argv1 :: rest =>
    if strcmpU argv1 (cU "-help") = 0 ∨ strcmpU argv1 (cU "-?") = 0 then
      (false, options, showHelp)
    else if strcmpU argv1 (cU "-v") = 0 then
      (false, options, showVersion sdk)
    else
      let r := parseLoop sdk (argv1 :: rest) options
      (true, r.1, r.2)

/-- The function `checkOptions`, with the complaint it prints. -/
def checkOptions (options : OPTIONS) : Bool × List Event :=
  let EDI_DATA_INCOMING := cU "EDI_DATA_INCOMING"
  let EDI_STATUS_INCOMING := cU "EDI_STATUS_INCOMING"
  let MAX_PATH_LEN := 100
  let MAX_PORT_LEN := 10
  if !options.showSysInfo then
    match options.function with
    | none => (false, [.printfU "Missing or invalid -F option.\n" []])
    | some function =>
      if strcmpU function EDI_DATA_INCOMING ≠ 0 ∧
          strcmpU function EDI_STATUS_INCOMING ≠ 0 then
        (false, [.printfU "Missing or invalid -F option.\n" []])
      else
        match options.path with
        | none => (false, [.printfU "Missing or invalid -E PATHNAME=  option.\n" []])
        | some [] => (false, [.printfU "Missing or invalid -E PATHNAME=  option.\n" []])
        | some (c :: path) =>
          if strlenU (c :: path) > MAX_PATH_LEN then
            (false, [.printfU
              "Path specified by -E PATHNAME= excceeds the maximum length of 100. \n" []])
          else
            match options.port with
            | none => (false, [.printfU "Missing or invalid -E PORT=  option.\n" []])
            | some [] => (false, [.printfU "Missing or invalid -E PORT=  option.\n" []])
            | some (d :: port) =>
              if strlenU (d :: port) > MAX_PORT_LEN then
                (false, [.printfU
                  "Port name specified by -E PORT= excceeds the maximum length of 10. \n" []])
              else (true, [])
  else (true, [])

/-- The function `showConnAttr` (the pointer it is given is never null). -/
def showConnAttr (attr : RFC_ATTRIBUTES) : List Event :=
  [ .printfU "SAP System ID: %s\n" [.str attr.sysId],
    .printfU "SAP System Number: %s\n" [.str attr.sysNumber],
    .printfU "Partner Host: %s\n" [.str attr.partnerHost],
    .printfU "Own Host: %s\n" [.str attr.host],
    .printfU "Partner System Release: %s\n" [.str attr.partnerRel],
    .printfU "Partner Kernel Release: %s\n" [.str attr.kernelRel],
    .printfU "Own Release: %s\n" [.str attr.rel],
    .printfU "Partner Codepage: %s\n" [.str attr.partnerCodepage],
    .printfU "Own Codepage: %s\n" [.str attr.codepage],
    .printfU "User: %s\n" [.str attr.user],
    .printfU "Client: %s\n" [.str attr.client],
    .printfU "Language: %s\n" [.str attr.language] ]

/-- The function `close`: each handle that is not null is released, the
connection first, then the function, then its description. -/
def close (connHandle : RFC_CONNECTION_HANDLE)
    (funcDescHandle : RFC_FUNCTION_DESC_HANDLE)
    (funcHandle : RFC_FUNCTION_HANDLE) : List Event :=
  (if connHandle ≠ 0 then [.RfcCloseConnection connHandle] else []) ++
  (if funcHandle ≠ 0 then [.RfcDestroyFunction funcHandle] else []) ++
  (if funcDescHandle ≠ 0 then [.RfcDestroyFunctionDesc funcDescHandle] else [])

/-- The parameter description `parDescPathname` of `getFunctionDescHandle`:
a character field named `PATHNAME`, 100 characters (200 bytes) long. -/
def parDescPathname : RFC_PARAMETER_DESC :=
  { name := cU "PATHNAME", nucLength := 100, ucLength := 200 }

/-- The parameter description `parDescPort` of `getFunctionDescHandle`: a
character field named `PORT`, 10 characters (20 bytes) long. -/
def parDescPort : RFC_PARAMETER_DESC :=
  { name := cU "PORT", nucLength := 10, ucLength := 20 }

/-- The function `getFunctionDescHandle`: the returned handle, `*error` as
the call leaves it, and the SDK calls made. -/
def getFunctionDescHandle (sdk : SDK) (functionName : CStr)
    (error : RFC_ERROR_INFO) :
    RFC_FUNCTION_DESC_HANDLE × RFC_ERROR_INFO × List Event :=
  let created := sdk.RfcCreateFunctionDesc functionName error
  let funcDesc := created.1
  let ev1 : List Event := [.RfcCreateFunctionDesc functionName funcDesc created.2]
  if funcDesc = 0 then (0, created.2, ev1)
  else
    let added1 := sdk.RfcAddParameter funcDesc parDescPathname created.2
    let ev2 := ev1 ++ [.RfcAddParameter funcDesc parDescPathname added1.1 added1.2]
    if added1.1 ≠ RFC_OK then
      (0, added1.2, ev2 ++ [.RfcDestroyFunctionDesc funcDesc])
    else
      let added2 := sdk.RfcAddParameter funcDesc parDescPort added1.2
      let ev3 := ev2 ++ [.RfcAddParameter funcDesc parDescPort added2.1 added2.2]
      if added2.1 ≠ RFC_OK then
        (0, added2.2, ev3 ++ [.RfcDestroyFunctionDesc funcDesc])
      else (funcDesc, added2.2, ev3)

/-- The local variables of `startRfc` where its `try` block is left, the
exception in flight (if one was thrown) and the effects so far. -/
structure TryExit where
  rc : RFC_RC
  connHandle : RFC_CONNECTION_HANDLE
  funcDesc : RFC_FUNCTION_DESC_HANDLE
  funcHandle : RFC_FUNCTION_HANDLE
  thrown : Option RFC_ERROR_INFO
  trace : List Event
deriving DecidableEq, Repr

/-- The connection parameter array `connParams` of `startRfc`. -/
def connParams (options : OPTIONS) : List RFC_CONNECTION_PARAMETER :=
  [ { name := cU "ashost", value := options.ashost },
    { name := cU "sysnr", value := options.sysnr },
    { name := cU "client", value := options.client },
    { name := cU "lang",
      value := if options.language.isSome then options.language else some (cU "E") },
    { name := cU "user", value := options.user },
    { name := cU "passwd", value := options.passwd },
    { name := cU "dest",
      value := if options.dest.isSome then options.dest else some (cU "") } ]

/-- The `try` block of `startRfc`. The result is `none` where the block takes
the length of a null string (`strlenU(options->path)` or
`strlenU(options->port)` with the pointer null), which is undefined. -/
def startRfcTry (sdk : SDK) (options : OPTIONS) : Option TryExit :=
  let error0 : RFC_ERROR_INFO := { code := 0, message := [] }
  let opened := sdk.RfcOpenConnection (connParams options) error0
  let connHandle := opened.1
  let ev1 : List Event := [.RfcOpenConnection (connParams options) connHandle opened.2]
  if connHandle = 0 then
    some { rc := RFC_OK, connHandle := connHandle, funcDesc := 0, funcHandle := 0,
           thrown := some opened.2, trace := ev1 }
  else if options.showSysInfo then
    let got := sdk.RfcGetConnectionAttributes connHandle opened.2
    let ev2 := ev1 ++ [.RfcGetConnectionAttributes connHandle got.1 got.2.2]
    if got.1 ≠ RFC_OK then
      some { rc := got.1, connHandle := connHandle, funcDesc := 0, funcHandle := 0,
             thrown := some got.2.2, trace := ev2 }
    else
      some { rc := got.1, connHandle := connHandle, funcDesc := 0, funcHandle := 0,
             thrown := none, trace := ev2 ++ showConnAttr got.2.1 }
  else
    match options.function with
    | none =>
      some { rc := RFC_OK, connHandle := connHandle, funcDesc := 0, funcHandle := 0,
             thrown := none, trace := ev1 }
    | some function =>
      let described := getFunctionDescHandle sdk function opened.2
      let funcDesc := described.1
      let ev2 := ev1 ++ described.2.2
      if funcDesc = 0 then
        some { rc := RFC_OK, connHandle := connHandle, funcDesc := funcDesc,
               funcHandle := 0, thrown := some described.2.1, trace := ev2 }
      else
        let created := sdk.RfcCreateFunction funcDesc described.2.1
        let funcHandle := created.1
        let ev3 := ev2 ++ [.RfcCreateFunction funcDesc funcHandle created.2]
        if funcHandle = 0 then
          some { rc := RFC_OK, connHandle := connHandle, funcDesc := funcDesc,
                 funcHandle := funcHandle, thrown := some created.2, trace := ev3 }
        else
          match options.path with
          | none => none
          | some path =>
            let len1 := strlenU path % 2 ^ 32
            let set1 := sdk.RfcSetChars funcHandle (cU "PATHNAME") path len1 created.2
            let ev4 := ev3 ++
              [.RfcSetChars funcHandle (cU "PATHNAME") path len1 set1.1 set1.2]
            if set1.1 ≠ RFC_OK then
              some { rc := set1.1, connHandle := connHandle, funcDesc := funcDesc,
                     funcHandle := funcHandle, thrown := some set1.2, trace := ev4 }
            else
              match options.port with
              | none => none
              | some port =>
                let len2 := strlenU port % 2 ^ 32
                let set2 := sdk.RfcSetChars funcHandle (cU "PORT") port len2 set1.2
                let ev5 := ev4 ++
                  [.RfcSetChars funcHandle (cU "PORT") port len2 set2.1 set2.2]
                if set2.1 ≠ RFC_OK then
                  some { rc := set2.1, connHandle := connHandle, funcDesc := funcDesc,
                         funcHandle := funcHandle, thrown := some set2.2, trace := ev5 }
                else
                  let invoked := sdk.RfcInvoke connHandle funcHandle set2.2
                  let ev6 := ev5 ++ [.RfcInvoke connHandle funcHandle invoked.1 invoked.2]
                  some { rc := invoked.1, connHandle := connHandle, funcDesc := funcDesc,
                         funcHandle := funcHandle,
                         thrown := if invoked.1 ≠ RFC_OK then some invoked.2 else none,
                         trace := ev6 }

/-- The function `startRfc`: the returned code and the effects, or `none`
where the behaviour is undefined. The `catch` block prints the error and
makes its code the result; `close` runs on every path. -/
def startRfc (sdk : SDK) (options : OPTIONS) : Option (RFC_RC × List Event) :=
  match startRfcTry sdk options with
  | none => none
  | some x =>
    match x.thrown with
    | none => some (x.rc, x.trace ++ close x.connHandle x.funcDesc x.funcHandle)
    | some info =>
      some (info.code,
        x.trace ++
        [.printfU "Error: %s:%s\n"
          [.str (sdk.RfcGetRcAsString info.code), .str info.message]] ++
        close x.connHandle x.funcDesc x.funcHandle)

/-- The client's `mainU`: the exit status and the effects of the run, or
`none` where the behaviour is undefined. -/
def mainU (sdk : SDK) (argv : List CStr) : Option (Int × List Event) :=
  let parsed := parseCommand sdk argv OPTIONS.zero
  if !parsed.1 then some (0, parsed.2.2)
  else
    let options := parsed.2.1
    let checked := checkOptions options
    if !checked.1 then some (1, parsed.2.2 ++ checked.2 ++ showHelp)
    else
      match startRfc sdk options with
      | none => none
      | some r => some ((r.1 : Int), parsed.2.2 ++ checked.2 ++ r.2)

/-! ## Observations on a trace -/

/-- A call whose result the client inspects, and that reported failure: a
null handle, or a code other than `RFC_OK`. -/
def Event.failed : Event → Bool
  | .RfcOpenConnection _ result _ => result = 0
  | .RfcGetConnectionAttributes _ rc _ => rc ≠ RFC_OK
  | .RfcCreateFunctionDesc _ result _ => result = 0
  | .RfcAddParameter _ _ rc _ => rc ≠ RFC_OK
  | .RfcCreateFunction _ result _ => result = 0
  | .RfcSetChars _ _ _ _ rc _ => rc ≠ RFC_OK
  | .RfcInvoke _ _ rc _ => rc ≠ RFC_OK
  | _ => false

/-- The error information a call left behind, for the calls that are given
an `RFC_ERROR_INFO*`. -/
def Event.errorInfo : Event → Option RFC_ERROR_INFO
  | .RfcOpenConnection _ _ error => some error
  | .RfcGetConnectionAttributes _ _ error => some error
  | .RfcCreateFunctionDesc _ _ error => some error
  | .RfcAddParameter _ _ _ error => some error
  | .RfcCreateFunction _ _ error => some error
  | .RfcSetChars _ _ _ _ _ error => some error
  | .RfcInvoke _ _ _ error => some error
  | _ => none

/-- A line of output. -/
def Event.isPrint : Event → Bool
  | .printfU _ _ => true
  | _ => false

/-- One of the three release calls that `close` makes. -/
def Event.isCleanup : Event → Bool
  | .RfcCloseConnection _ => true
  | .RfcDestroyFunction _ => true
  | .RfcDestroyFunctionDesc _ => true
  | _ => false

/-- A call that only `startRfc` (with `getFunctionDescHandle` and `close`)
makes: everything but output and `RfcSetTraceLevel`. -/
def Event.isStartRfcCall : Event → Bool
  | .printfU _ _ => false
  | .RfcSetTraceLevel _ => false
  | _ => true

/-- A call that creates or invokes a remote function. -/
def Event.isFunctionCall : Event → Bool
  | .RfcCreateFunctionDesc _ _ _ => true
  | .RfcAddParameter _ _ _ _ => true
  | .RfcCreateFunction _ _ _ => true
  | .RfcSetChars _ _ _ _ _ _ => true
  | .RfcInvoke _ _ _ _ => true
  | _ => false

/-- A call of `RfcOpenConnection`. -/
def Event.isOpenConnection : Event → Bool
  | .RfcOpenConnection _ _ _ => true
  | _ => false

/-- The first failing call of a trace, with the events that follow it. -/
def firstFailure : List Event → Option (Event × List Event)
  | [] => none
  | e :: rest => if e.failed then some (e, rest) else firstFailure rest

/-- The trace levels handed to `RfcSetTraceLevel`, in order. -/
def traceLevels (trace : List Event) : List Nat :=
  trace.filterMap fun e =>
    match e with
    | .RfcSetTraceLevel traceLevel => some traceLevel
    | _ => none

/-- The handles that have been created and not yet released. -/
structure Live where
  conns : List RFC_CONNECTION_HANDLE
  descs : List RFC_FUNCTION_DESC_HANDLE
  funcs : List RFC_FUNCTION_HANDLE
deriving DecidableEq, Repr

/-- No handle is live. -/
def Live.empty : Live := { conns := [], descs := [], funcs := [] }

/-- The handle discipline, one event at a time: a successful creation makes
the handle live; a use or a release needs a live handle (else the result is
`none`); a release ends the handle's life. -/
def Live.step (s : Live) : Event → Option Live
  | .RfcOpenConnection _ result _ =>
    some (if result ≠ 0 then { s with conns := result :: s.conns } else s)
  | .RfcGetConnectionAttributes conn _ _ =>
    if conn ∈ s.conns then some s else none
  | .RfcCreateFunctionDesc _ result _ =>
    some (if result ≠ 0 then { s with descs := result :: s.descs } else s)
  | .RfcAddParameter funcDesc _ _ _ =>
    if funcDesc ∈ s.descs then some s else none
  | .RfcCreateFunction funcDesc result _ =>
    if funcDesc ∈ s.descs then
      some (if result ≠ 0 then { s with funcs := result :: s.funcs } else s)
    else none
  | .RfcSetChars func _ _ _ _ _ =>
    if func ∈ s.funcs then some s else none
  | .RfcInvoke conn func _ _ =>
    if conn ∈ s.conns ∧ func ∈ s.funcs then some s else none
  | .RfcCloseConnection conn =>
    if conn ∈ s.conns then some { s with conns := s.conns.erase conn } else none
  | .RfcDestroyFunction func =>
    if func ∈ s.funcs then some { s with funcs := s.funcs.erase func } else none
  | .RfcDestroyFunctionDesc funcDesc =>
    if funcDesc ∈ s.descs then some { s with descs := s.descs.erase funcDesc } else none
  | _ => some s

/-- The handle discipline along a trace. -/
def Live.run (s : Live) : List Event → Option Live
  | [] => some s
  | e :: rest =>
    match s.step e with
    | none => none
    | some s' => Live.run s' rest

/-- The options after which `parseCommand` reads a value with `++i`. -/
def takesValue (arg : CStr) : Bool :=
  decide (arg ∈ [cU "-h", cU "-s", cU "-u", cU "-p", cU "-c", cU "-l", cU "-D", cU "-F",
    cU "-E", cU "-t"])

/-- Whether the loop of `parseCommand` reads position `i` of the arguments
`args` (those after the program name) as an option, and not as the value of
the option before it. -/
def readAsOption : List CStr → Nat → Bool
  | [], _ => false
  | _ :: _, 0 => true
  | [_], _ + 1 => false
  | arg :: _ :: _, 1 => !takesValue arg
  | arg :: v :: rest, i + 2 =>
    if takesValue arg then readAsOption rest i else readAsOption (v :: rest) (i + 1)

/-- What the loop of `parseCommand` makes of `showSysInfo`, starting from
`b`: an `-i` read as an option sets it and nothing clears it. -/
def showSysInfoAfter : List CStr → Bool → Bool
  | [], b => b
  | [arg], b => if arg = cU "-i" then true else b
  | arg :: v :: rest, b =>
    if arg = cU "-i" then showSysInfoAfter (v :: rest) true
    else if takesValue arg then showSysInfoAfter rest b
    else showSysInfoAfter (v :: rest) b

/-! ## Libraries used in the examples -/

/-- The value of the leading decimal digits of a string, after `acc`. -/
def decimalValue : CStr → Nat → Nat
  | [], acc => acc
  | c :: s, acc =>
    if 48 ≤ c ∧ c ≤ 57 then decimalValue s (acc * 10 + (c - 48)) else acc

/-- The C library's `atoi` on ASCII text whose value fits an `int`: blanks
are skipped, a sign is read, then the decimal digits. -/
def atoiDecimal (s : CStr) : Int :=
  match s.dropWhile (fun c => c = 32 ∨ (9 ≤ c ∧ c ≤ 13)) with
  | 45 :: t => -(decimalValue t 0 : Int)
  | 43 :: t => (decimalValue t 0 : Int)
  | t => (decimalValue t 0 : Int)

/-- A library whose every call succeeds: the handles are 1, 2 and 3, every
code is `RFC_OK` and the error information is left as it was. -/
def sdkAllOk : SDK :=
  { atoiU := atoiDecimal
    RfcGetVersion := cU "7.50"
    compilerVersion := ("%s\n", [.str (cU "Version not available.")])
    RfcGetRcAsString := fun rc => if rc = 0 then cU "RFC_OK" else cU "RFC_ERROR"
    RfcOpenConnection := fun _ error => (1, error)
    RfcGetConnectionAttributes := fun _ error =>
      (RFC_OK, ⟨[], [], [], [], [], [], [], [], [], [], [], []⟩, error)
    RfcCreateFunctionDesc := fun _ error => (2, error)
    RfcAddParameter := fun _ _ error => (RFC_OK, error)
    RfcCreateFunction := fun _ error => (3, error)
    RfcSetChars := fun _ _ _ _ error => (RFC_OK, error)
    RfcInvoke := fun _ _ error => (RFC_OK, error) }

/-- The library of `sdkAllOk`, except that adding the second parameter to
the function description fails with code 17. -/
def sdkAddPortFails : SDK :=
  { sdkAllOk with
    RfcAddParameter := fun _ par error =>
      if par.name = cU "PORT" then (17, { code := 17, message := cU "no memory" })
      else (RFC_OK, error) }

/-- Options as `checkOptions` accepts them for a call of `EDI_DATA_INCOMING`. -/
def optionsEdi : OPTIONS :=
  { OPTIONS.zero with
    function := some (cU "EDI_DATA_INCOMING")
    path := some (cU "/tmp/idoc.txt")
    port := some (cU "SAPPORT") }

/-- A command line that asks for a call of `EDI_DATA_INCOMING`. -/
def argvEdi : List CStr :=
  [cU "startrfc", cU "-F", cU "EDI_DATA_INCOMING", cU "-E", cU "PATHNAME=/tmp/idoc.txt",
   cU "-E", cU "PORT=SAPPORT"]

/-! ## The runs of `getFunctionDescHandle` and `startRfc`

The two functions are straight-line code with early exits, so each has a
handful of possible runs. The relations below list them, and
`getFunctionDescHandle_run` and `startRfc_run` show that the functions do
nothing else. -/

/-- The line the `catch` block of `startRfc` prints. -/
def errorLine (sdk : SDK) (info : RFC_ERROR_INFO) : Event :=
  .printfU "Error: %s:%s\n" [.str (sdk.RfcGetRcAsString info.code), .str info.message]

/-- The runs of `getFunctionDescHandle functionName`: the handle returned,
the error information left and the calls made. -/
inductive DescRun (functionName : CStr) :
    RFC_FUNCTION_DESC_HANDLE → RFC_ERROR_INFO → List Event → Prop where
  | createFailed (e1 : RFC_ERROR_INFO) :
    DescRun functionName 0 e1 [.RfcCreateFunctionDesc functionName 0 e1]
  | addPathnameFailed (funcDesc : RFC_FUNCTION_DESC_HANDLE) (e1 : RFC_ERROR_INFO)
      (rc : RFC_RC) (e2 : RFC_ERROR_INFO) (hd : funcDesc ≠ 0) (hrc : rc ≠ RFC_OK) :
    DescRun functionName 0 e2
      [.RfcCreateFunctionDesc functionName funcDesc e1,
       .RfcAddParameter funcDesc parDescPathname rc e2,
       .RfcDestroyFunctionDesc funcDesc]
  | addPortFailed (funcDesc : RFC_FUNCTION_DESC_HANDLE) (e1 e2 : RFC_ERROR_INFO)
      (rc : RFC_RC) (e3 : RFC_ERROR_INFO) (hd : funcDesc ≠ 0) (hrc : rc ≠ RFC_OK) :
    DescRun functionName 0 e3
      [.RfcCreateFunctionDesc functionName funcDesc e1,
       .RfcAddParameter funcDesc parDescPathname RFC_OK e2,
       .RfcAddParameter funcDesc parDescPort rc e3,
       .RfcDestroyFunctionDesc funcDesc]
  | created (funcDesc : RFC_FUNCTION_DESC_HANDLE) (e1 e2 e3 : RFC_ERROR_INFO)
      (hd : funcDesc ≠ 0) :
    DescRun functionName funcDesc e3
      [.RfcCreateFunctionDesc functionName funcDesc e1,
       .RfcAddParameter funcDesc parDescPathname RFC_OK e2,
       .RfcAddParameter funcDesc parDescPort RFC_OK e3]

/-- The runs of `startRfc sdk options`: the code returned and the trace. -/
inductive StartRfcRun (sdk : SDK) (options : OPTIONS) : RFC_RC → List Event → Prop where
  | openFailed (e0 : RFC_ERROR_INFO) :
    StartRfcRun sdk options e0.code
      [.RfcOpenConnection (connParams options) 0 e0, errorLine sdk e0]
  | attributesFailed (conn : RFC_CONNECTION_HANDLE) (e0 : RFC_ERROR_INFO) (rc : RFC_RC)
      (e1 : RFC_ERROR_INFO) (hc : conn ≠ 0) (hi : options.showSysInfo = true)
      (hrc : rc ≠ RFC_OK) :
    StartRfcRun sdk options e1.code
      [.RfcOpenConnection (connParams options) conn e0,
       .RfcGetConnectionAttributes conn rc e1, errorLine sdk e1,
       .RfcCloseConnection conn]
  | attributesShown (conn : RFC_CONNECTION_HANDLE) (e0 e1 : RFC_ERROR_INFO)
      (attr : RFC_ATTRIBUTES) (hc : conn ≠ 0) (hi : options.showSysInfo = true) :
    StartRfcRun sdk options RFC_OK
      ([.RfcOpenConnection (connParams options) conn e0,
        .RfcGetConnectionAttributes conn RFC_OK e1] ++ showConnAttr attr ++
       [.RfcCloseConnection conn])
  | noFunction (conn : RFC_CONNECTION_HANDLE) (e0 : RFC_ERROR_INFO) (hc : conn ≠ 0)
      (hi : options.showSysInfo = false) (hf : options.function = none) :
    StartRfcRun sdk options RFC_OK
      [.RfcOpenConnection (connParams options) conn e0, .RfcCloseConnection conn]
  | descFailed (conn : RFC_CONNECTION_HANDLE) (e0 : RFC_ERROR_INFO) (function : CStr)
      (e1 : RFC_ERROR_INFO) (evs : List Event) (hc : conn ≠ 0)
      (hi : options.showSysInfo = false) (hf : options.function = some function)
      (hdesc : DescRun function 0 e1 evs) :
    StartRfcRun sdk options e1.code
      (.RfcOpenConnection (connParams options) conn e0 :: evs ++
       [errorLine sdk e1, .RfcCloseConnection conn])
  | createFailed (conn : RFC_CONNECTION_HANDLE) (e0 : RFC_ERROR_INFO) (function : CStr)
      (funcDesc : RFC_FUNCTION_DESC_HANDLE) (e1 : RFC_ERROR_INFO) (evs : List Event)
      (e2 : RFC_ERROR_INFO) (hc : conn ≠ 0) (hi : options.showSysInfo = false)
      (hf : options.function = some function) (hd : funcDesc ≠ 0)
      (hdesc : DescRun function funcDesc e1 evs) :
    StartRfcRun sdk options e2.code
      (.RfcOpenConnection (connParams options) conn e0 :: evs ++
       [.RfcCreateFunction funcDesc 0 e2, errorLine sdk e2,
        .RfcCloseConnection conn, .RfcDestroyFunctionDesc funcDesc])
  | setPathnameFailed (conn : RFC_CONNECTION_HANDLE) (e0 : RFC_ERROR_INFO)
      (function : CStr) (funcDesc : RFC_FUNCTION_DESC_HANDLE) (e1 : RFC_ERROR_INFO)
      (evs : List Event) (func : RFC_FUNCTION_HANDLE) (e2 : RFC_ERROR_INFO) (path : CStr)
      (rc : RFC_RC) (e3 : RFC_ERROR_INFO) (hc : conn ≠ 0)
      (hi : options.showSysInfo = false) (hf : options.function = some function)
      (hd : funcDesc ≠ 0) (hdesc : DescRun function funcDesc e1 evs) (hfn : func ≠ 0)
      (hp : options.path = some path) (hrc : rc ≠ RFC_OK) :
    StartRfcRun sdk options e3.code
      (.RfcOpenConnection (connParams options) conn e0 :: evs ++
       [.RfcCreateFunction funcDesc func e2,
        .RfcSetChars func (cU "PATHNAME") path (strlenU path % 2 ^ 32) rc e3,
        errorLine sdk e3,
        .RfcCloseConnection conn, .RfcDestroyFunction func,
        .RfcDestroyFunctionDesc funcDesc])
  | setPortFailed (conn : RFC_CONNECTION_HANDLE) (e0 : RFC_ERROR_INFO)
      (function : CStr) (funcDesc : RFC_FUNCTION_DESC_HANDLE) (e1 : RFC_ERROR_INFO)
      (evs : List Event) (func : RFC_FUNCTION_HANDLE) (e2 : RFC_ERROR_INFO) (path : CStr)
      (e3 : RFC_ERROR_INFO) (port : CStr) (rc : RFC_RC) (e4 : RFC_ERROR_INFO)
      (hc : conn ≠ 0) (hi : options.showSysInfo = false)
      (hf : options.function = some function) (hd : funcDesc ≠ 0)
      (hdesc : DescRun function funcDesc e1 evs) (hfn : func ≠ 0)
      (hp : options.path = some path) (hq : options.port = some port)
      (hrc : rc ≠ RFC_OK) :
    StartRfcRun sdk options e4.code
      (.RfcOpenConnection (connParams options) conn e0 :: evs ++
       [.RfcCreateFunction funcDesc func e2,
        .RfcSetChars func (cU "PATHNAME") path (strlenU path % 2 ^ 32) RFC_OK e3,
        .RfcSetChars func (cU "PORT") port (strlenU port % 2 ^ 32) rc e4,
        errorLine sdk e4,
        .RfcCloseConnection conn, .RfcDestroyFunction func,
        .RfcDestroyFunctionDesc funcDesc])
  | invokeFailed (conn : RFC_CONNECTION_HANDLE) (e0 : RFC_ERROR_INFO)
      (function : CStr) (funcDesc : RFC_FUNCTION_DESC_HANDLE) (e1 : RFC_ERROR_INFO)
      (evs : List Event) (func : RFC_FUNCTION_HANDLE) (e2 : RFC_ERROR_INFO) (path : CStr)
      (e3 : RFC_ERROR_INFO) (port : CStr) (e4 : RFC_ERROR_INFO) (rc : RFC_RC)
      (e5 : RFC_ERROR_INFO) (hc : conn ≠ 0) (hi : options.showSysInfo = false)
      (hf : options.function = some function) (hd : funcDesc ≠ 0)
      (hdesc : DescRun function funcDesc e1 evs) (hfn : func ≠ 0)
      (hp : options.path = some path) (hq : options.port = some port)
      (hrc : rc ≠ RFC_OK) :
    StartRfcRun sdk options e5.code
      (.RfcOpenConnection (connParams options) conn e0 :: evs ++
       [.RfcCreateFunction funcDesc func e2,
        .RfcSetChars func (cU "PATHNAME") path (strlenU path % 2 ^ 32) RFC_OK e3,
        .RfcSetChars func (cU "PORT") port (strlenU port % 2 ^ 32) RFC_OK e4,
        .RfcInvoke conn func rc e5,
        errorLine sdk e5,
        .RfcCloseConnection conn, .RfcDestroyFunction func,
        .RfcDestroyFunctionDesc funcDesc])
  | invoked (conn : RFC_CONNECTION_HANDLE) (e0 : RFC_ERROR_INFO)
      (function : CStr) (funcDesc : RFC_FUNCTION_DESC_HANDLE) (e1 : RFC_ERROR_INFO)
      (evs : List Event) (func : RFC_FUNCTION_HANDLE) (e2 : RFC_ERROR_INFO) (path : CStr)
      (e3 : RFC_ERROR_INFO) (port : CStr) (e4 e5 : RFC_ERROR_INFO)
      (hc : conn ≠ 0) (hi : options.showSysInfo = false)
      (hf : options.function = some function) (hd : funcDesc ≠ 0)
      (hdesc : DescRun function funcDesc e1 evs) (hfn : func ≠ 0)
      (hp : options.path = some path) (hq : options.port = some port) :
    StartRfcRun sdk options RFC_OK
      (.RfcOpenConnection (connParams options) conn e0 :: evs ++
       [.RfcCreateFunction funcDesc func e2,
        .RfcSetChars func (cU "PATHNAME") path (strlenU path % 2 ^ 32) RFC_OK e3,
        .RfcSetChars func (cU "PORT") port (strlenU port % 2 ^ 32) RFC_OK e4,
        .RfcInvoke conn func RFC_OK e5,
        .RfcCloseConnection conn, .RfcDestroyFunction func,
        .RfcDestroyFunctionDesc funcDesc])

end StartRfc

/-! ## The server: `ServerMonitorSample.c` -/

namespace ServerMonitorSample

open StartRfc

/-- An opaque SDK handle, by its address; 0 is the null handle. -/
abbrev RFC_SERVER_HANDLE := Nat

/-- The fields of `RFC_SERVER_MONITOR_DATA` that the server prints
(`cpicConvId` is read through `clientInfo`). -/
structure RFC_SERVER_MONITOR_DATA where
  cpicConvId : CStr
  isActive : Int
  functionModuleName : CStr
  lastActivity : Int
deriving DecidableEq, Repr

/-- One observable effect of the server. -/
inductive Event where
  | printfU (format : String) (args : List PrintArg)
  | sleep (sec : Nat)
  | usleep (usec : Nat)
  | RfcLoadCryptoLibrary (pathToLib : CStr) (rc : RFC_RC) (errorInfo : RFC_ERROR_INFO)
  | RfcCreateServer (connectionParams : List RFC_CONNECTION_PARAMETER) (paramCount : Nat)
      (result : RFC_SERVER_HANDLE) (errorInfo : RFC_ERROR_INFO)
  | RfcLaunchServer (serverHandle : RFC_SERVER_HANDLE) (rc : RFC_RC)
      (errorInfo : RFC_ERROR_INFO)
  | RfcGetServerConnectionMonitorData (serverHandle : RFC_SERVER_HANDLE) (rc : RFC_RC)
      (monitor : List RFC_SERVER_MONITOR_DATA) (errorInfo : RFC_ERROR_INFO)
  | RfcDestroyServerConnectionMonitorData (numberOfConnections : Nat)
      (monitor : List RFC_SERVER_MONITOR_DATA)
  | RfcShutdownServer (serverHandle : RFC_SERVER_HANDLE) (timeout : Nat) (rc : RFC_RC)
      (errorInfo : RFC_ERROR_INFO)
  | RfcDestroyServer (serverHandle : RFC_SERVER_HANDLE)
deriving DecidableEq, Repr

/-- How far the process got. -/
inductive Outcome where
  /-- It called `exit(status)`. -/
  | exited (status : Int)
  /-- Its `mainU` returned `status`. -/
  | returned (status : Int)
  /-- It is still in the monitoring loop after the polls observed. -/
  | polling
deriving DecidableEq, Repr

/-- The library the server is linked with. The monitor data are the array
the library returns, `numberOfConnections` being its length; the poll number
lets the library answer differently every time. -/
structure SDK where
  RfcLoadCryptoLibrary : CStr → RFC_RC × RFC_ERROR_INFO
  RfcCreateServer : List RFC_CONNECTION_PARAMETER → Nat →
    RFC_SERVER_HANDLE × RFC_ERROR_INFO
  RfcLaunchServer : RFC_SERVER_HANDLE → RFC_ERROR_INFO → RFC_RC × RFC_ERROR_INFO
  RfcGetServerConnectionMonitorData : Nat → RFC_SERVER_HANDLE → RFC_ERROR_INFO →
    RFC_RC × List RFC_SERVER_MONITOR_DATA × RFC_ERROR_INFO
  RfcDestroyServerConnectionMonitorData : Nat → List RFC_SERVER_MONITOR_DATA →
    RFC_ERROR_INFO → RFC_ERROR_INFO
  RfcShutdownServer : RFC_SERVER_HANDLE → Nat → RFC_ERROR_INFO → RFC_RC × RFC_ERROR_INFO

/-- The function `RfcSleep` (the branch that is not for Windows). -/
def RfcSleep (milliSec : Nat) : List Event :=
  let sec := (milliSec / 1000) % 2 ^ 32
  let usec := (1000 * (milliSec % 1000)) % 2 ^ 32
  (if sec ≠ 0 then [.sleep sec] else []) ++ (if usec ≠ 0 then [.usleep usec] else [])

/-- The variable `running`: it is set to 1 and nothing in the file writes
to it. -/
def running : Int := 1

/-- The function `errorHandling`: it prints the line; the caller's process
ends with `exit(1)` there. -/
def errorHandling (description : CStr) (errorInfo : RFC_ERROR_INFO) : List Event :=
  [.printfU "%s : (%d) %s\n"
    [.str description, .num errorInfo.code, .str errorInfo.message]]

/-- The function `loadCryptolib`: whether the process has exited, and the
effects. -/
def loadCryptolib (sdk : SDK) (pathTolib : CStr) : Bool × List Event :=
  let loaded := sdk.RfcLoadCryptoLibrary pathTolib
  let ev : List Event := [.RfcLoadCryptoLibrary pathTolib loaded.1 loaded.2]
  if loaded.1 ≠ RFC_OK then
    (true, ev ++ errorHandling (cU "Could not load cryptolib") loaded.2)
  else (false, ev)

/-- The function `installFunctionModules`: its body is empty. -/
def installFunctionModules : List Event := []

/-- What the body of the `for` loop prints for one connection (`lld` stands
for `SAP_Flld`, the SDK's format of a 64-bit integer). -/
def monitorLine (m : RFC_SERVER_MONITOR_DATA) : Event :=
  if m.isActive ≠ 0 then
    .printfU "Connection with convID %s is currently processing module %s\n"
      [.str m.cpicConvId, .str m.functionModuleName]
  else
    .printfU "Connection with convID %s last active at %lld\n"
      [.str m.cpicConvId, .num m.lastActivity]

/-- The code of `mainU` after the `while` loop. -/
def shutdown (sdk : SDK) (serverHandle : RFC_SERVER_HANDLE) (errorInfo : RFC_ERROR_INFO) :
    Outcome × List Event :=
  let stopped := sdk.RfcShutdownServer serverHandle 0 errorInfo
  let ev : List Event := [.RfcShutdownServer serverHandle 0 stopped.1 stopped.2]
  if stopped.1 ≠ RFC_OK then
    (.exited 1, ev ++ errorHandling (cU "Error shutting down server") stopped.2)
  else
    (.returned 0, ev ++ [.RfcDestroyServer serverHandle])

/-- The `while (running != 0)` loop of `mainU` and what follows it, observed
for at most `polls` more rounds; `poll` counts the rounds so far. -/
def monitorLoop (sdk : SDK) (serverHandle : RFC_SERVER_HANDLE) :
    (polls : Nat) → (poll : Nat) → RFC_ERROR_INFO → Outcome × List Event
  | 0, _, _ => (.polling, [])
  | polls + 1, poll, errorInfo =>
    if running ≠ 0 then
      let got := sdk.RfcGetServerConnectionMonitorData poll serverHandle errorInfo
      let monitor := got.2.1
      let numberOfConnections := monitor.length
      let ev : List Event := RfcSleep (1000 * 60) ++
        [.RfcGetServerConnectionMonitorData serverHandle got.1 monitor got.2.2]
      if got.1 ≠ RFC_OK then
        (.exited 1, ev ++ errorHandling (cU "Error creating the server monitor") got.2.2)
      else
        let lines : List Event :=
          .printfU "Currently %d connections are estabished\n" [.num numberOfConnections] ::
            monitor.map monitorLine
        let errorInfo' :=
          sdk.RfcDestroyServerConnectionMonitorData numberOfConnections monitor got.2.2
        let r := monitorLoop sdk serverHandle polls (poll + 1) errorInfo'
        (r.1, ev ++ lines ++
          [.RfcDestroyServerConnectionMonitorData numberOfConnections monitor] ++ r.2)
    else shutdown sdk serverHandle errorInfo

/-- The server's `mainU`, observed for at most `polls` rounds of its loop. -/
def mainU (sdk : SDK) (argv : List CStr) (polls : Nat) : Outcome × List Event :=
  let loaded : Bool × List Event :=
    match argv with
    | _ :: path :: _ => loadCryptolib sdk path
    | _ => (false, [])
  if loaded.1 then (.exited 1, loaded.2)
  else
    let loginParams : List RFC_CONNECTION_PARAMETER :=
      [{ name := cU "DEST", value := some (cU "SERVER_SAMPLE") }]
    let created := sdk.RfcCreateServer loginParams 1
    let serverHandle := created.1
    let ev1 : List Event := loaded.2 ++ installFunctionModules ++
      [.RfcCreateServer loginParams 1 serverHandle created.2,
       .printfU "Starting to listen...\n\n" []]
    let launched := sdk.RfcLaunchServer serverHandle created.2
    let ev2 := ev1 ++ [.RfcLaunchServer serverHandle launched.1 launched.2]
    if launched.1 ≠ RFC_OK then
      (.exited 1, ev2 ++ errorHandling (cU "Error launching server") launched.2)
    else
      let r := monitorLoop sdk serverHandle polls 0 launched.2
      (r.1, ev2 ++ r.2)

/-- A call of the library (not output, not a sleep). -/
def Event.isSdkCall : Event → Bool
  | .printfU _ _ => false
  | .sleep _ => false
  | .usleep _ => false
  | _ => true

/-- A call whose result the server checks, and that reported a code other
than `RFC_OK`. -/
def Event.checkedFailure : Event → Bool
  | .RfcLoadCryptoLibrary _ rc _ => rc ≠ RFC_OK
  | .RfcLaunchServer _ rc _ => rc ≠ RFC_OK
  | .RfcGetServerConnectionMonitorData _ rc _ _ => rc ≠ RFC_OK
  | .RfcShutdownServer _ _ rc _ => rc ≠ RFC_OK
  | _ => false

/-- A call that reported failure: a code other than `RFC_OK`, or, for
`RfcCreateServer` (which returns a handle), the null handle. -/
def Event.failed : Event → Bool
  | .RfcCreateServer _ _ result _ => result = 0
  | e => e.checkedFailure

/-- The events after the first one that satisfies `p`. -/
def afterFirst (p : Event → Bool) : List Event → Option (List Event)
  | [] => none
  | e :: rest => if p e then some rest else afterFirst p rest

/-- A library in which creating the server fails (null handle, code 1) and
launching a null server fails with code 13; every other call succeeds and no
connection is ever reported. -/
def sdkCreateFails : SDK :=
  { RfcLoadCryptoLibrary := fun _ => (RFC_OK, { code := 0, message := [] })
    RfcCreateServer := fun _ _ => (0, { code := 1, message := cU "no gateway" })
    RfcLaunchServer := fun serverHandle errorInfo =>
      if serverHandle = 0 then (13, { code := 13, message := cU "invalid handle" })
      else (RFC_OK, errorInfo)
    RfcGetServerConnectionMonitorData := fun _ _ errorInfo => (RFC_OK, [], errorInfo)
    RfcDestroyServerConnectionMonitorData := fun _ _ errorInfo => errorInfo
    RfcShutdownServer := fun _ _ errorInfo => (RFC_OK, errorInfo) }

end ServerMonitorSample

namespace StartRfc

/-! ## Facts about the string functions and the parser -/

theorem strcmpU_eq_zero_iff (s t : CStr) : strcmpU s t = 0 ↔ s = t := by
  induction s generalizing t with
  | nil => cases t <;> simp [strcmpU]
  | cons a s ih =>
    cases t with
    | nil => simp [strcmpU]
    | cons b t =>
      by_cases h : a = b
      · simp [strcmpU, h, ih]
      · by_cases h2 : a < b <;> simp [strcmpU, h, h2]

theorem strncmpU_eq_zero_iff (s t : CStr) : strncmpU s t t.length = 0 ↔ t <+: s := by
  induction t generalizing s with
  | nil => simp [strncmpU]
  | cons b t ih =>
    cases s with
    | nil => simp [strncmpU]
    | cons a s =>
      by_cases h : a = b
      · subst h; simp [strncmpU, ih, List.cons_prefix_cons]
      · have h' : ¬ (b = a) := fun e => h e.symm
        by_cases h2 : a < b <;> simp [strncmpU, h, h', h2, List.cons_prefix_cons]

theorem parseLoop_F (sdk : SDK) (v : CStr) (rest : List CStr) (o : OPTIONS) :
    parseLoop sdk (cU "-F" :: v :: rest) o = parseLoop sdk rest { o with function := some v } := by
  rw [parseLoop]
  simp +decide [strcmpU_eq_zero_iff]

theorem strncmpU_PATHNAME (p : CStr) : strncmpU (cU "PATHNAME=" ++ p) (cU "PATHNAME=") 9 = 0 :=
  (strncmpU_eq_zero_iff (cU "PATHNAME=" ++ p) (cU "PATHNAME=")).2 (List.prefix_append _ _)

theorem strncmpU_PORT (q : CStr) : strncmpU (cU "PORT=" ++ q) (cU "PORT=") 5 = 0 :=
  (strncmpU_eq_zero_iff (cU "PORT=" ++ q) (cU "PORT=")).2 (List.prefix_append _ _)

theorem strncmpU_PORT_PATHNAME (q : CStr) : strncmpU (cU "PORT=" ++ q) (cU "PATHNAME=") 9 = 1 := rfl

theorem drop_PATHNAME (p : CStr) : (cU "PATHNAME=" ++ p).drop 9 = p := rfl
theorem drop_PORT (p : CStr) : (cU "PORT=" ++ p).drop 5 = p := rfl

theorem parseLoop_E_PATHNAME (sdk : SDK) (p : CStr) (rest : List CStr) (o : OPTIONS) :
    parseLoop sdk (cU "-E" :: (cU "PATHNAME=" ++ p) :: rest) o =
      parseLoop sdk rest { o with path := some p } := by
  rw [parseLoop]
  simp +decide [strcmpU_eq_zero_iff, strncmpU_PATHNAME, drop_PATHNAME]

theorem parseLoop_E_PORT (sdk : SDK) (q : CStr) (rest : List CStr) (o : OPTIONS) :
    parseLoop sdk (cU "-E" :: (cU "PORT=" ++ q) :: rest) o =
      parseLoop sdk rest { o with port := some q } := by
  rw [parseLoop]
  simp +decide [strcmpU_eq_zero_iff, strncmpU_PORT, strncmpU_PORT_PATHNAME, drop_PORT]

theorem perm_two {α : Type} {a b : α} {l : List α} (h : l.Perm [a, b]) :
    l = [a, b] ∨ l = [b, a] := by
  have hl := h.length_eq
  match l, hl with
  | [x, y], _ =>
    have hx : x ∈ [a, b] := h.subset (by simp)
    simp only [List.mem_cons, List.mem_singleton, List.not_mem_nil, or_false] at hx
    rcases hx with rfl | rfl
    · have h1 : [y].Perm [b] := h.cons_inv
      have := List.perm_singleton.1 h1
      simp_all
    · have h1 : [y].Perm [a] := (h.trans (List.Perm.swap x a [])).cons_inv
      have := List.perm_singleton.1 h1
      simp_all

theorem perm_three {α : Type} {a b c : α} {l : List α} (h : l.Perm [a, b, c]) :
    l = [a, b, c] ∨ l = [a, c, b] ∨ l = [b, a, c] ∨ l = [b, c, a] ∨
    l = [c, a, b] ∨ l = [c, b, a] := by
  have hl := h.length_eq
  match l, hl with
  | [x, y, z], _ =>
    have hx : x ∈ [a, b, c] := h.subset (by simp)
    simp only [List.mem_cons, List.mem_singleton, List.not_mem_nil, or_false] at hx
    rcases hx with rfl | rfl | rfl
    · have h1 : [y, z].Perm [b, c] := h.cons_inv
      rcases perm_two h1 with e | e <;> simp_all
    · have h1 : [y, z].Perm [a, c] := (h.trans (List.Perm.swap x a [c])).cons_inv
      rcases perm_two h1 with e | e <;> simp_all
    · have h2 : [a, b, x].Perm [x, a, b] :=
        ((List.Perm.swap x b []).cons a).trans (List.Perm.swap x a [b])
      have h1 : [y, z].Perm [a, b] := (h.trans h2).cons_inv
      rcases perm_two h1 with e | e <;> simp_all

/-- What `checkOptions` accepts. -/
theorem checkOptions_iff (o : OPTIONS) :
    (checkOptions o).1 = true ↔
      (o.showSysInfo = true ∨
        ((∃ f, o.function = some f ∧
            (f = cU "EDI_DATA_INCOMING" ∨ f = cU "EDI_STATUS_INCOMING")) ∧
         (∃ p, o.path = some p ∧ p ≠ [] ∧ strlenU p ≤ 100) ∧
         (∃ q, o.port = some q ∧ q ≠ [] ∧ strlenU q ≤ 10))) := by
  obtain ⟨user, passwd, client, language, ashost, sysnr, dest, function, path, port,
    trace, showSysInfo⟩ := o
  cases showSysInfo
  · cases function with
    | none => simp [checkOptions]
    | some f =>
      by_cases hf : f = cU "EDI_DATA_INCOMING" ∨ f = cU "EDI_STATUS_INCOMING"
      · have hf' : ¬ (¬ f = cU "EDI_DATA_INCOMING" ∧ ¬ f = cU "EDI_STATUS_INCOMING") := by
          tauto
        rcases path with _ | _ | ⟨c, p⟩
        · simp [checkOptions, strcmpU_eq_zero_iff, hf']
        · simp [checkOptions, strcmpU_eq_zero_iff, hf']
        · by_cases hp : strlenU (c :: p) > 100
          · have : ¬ strlenU (c :: p) ≤ 100 := by omega
            simp [checkOptions, strcmpU_eq_zero_iff, hf', hp, this]
          · have hp' : strlenU (c :: p) ≤ 100 := by omega
            rcases port with _ | _ | ⟨d, q⟩
            · simp [checkOptions, strcmpU_eq_zero_iff, hf', hp]
            · simp [checkOptions, strcmpU_eq_zero_iff, hf', hp]
            · by_cases hq : strlenU (d :: q) > 10
              · have : ¬ strlenU (d :: q) ≤ 10 := by omega
                simp [checkOptions, strcmpU_eq_zero_iff, hf', hp, hq, this]
              · have hq' : strlenU (d :: q) ≤ 10 := by omega
                simp [checkOptions, strcmpU_eq_zero_iff, hf, hf', hp, hp', hq, hq']
      · have hf' : ¬ f = cU "EDI_DATA_INCOMING" ∧ ¬ f = cU "EDI_STATUS_INCOMING" := by
          tauto
        simp [checkOptions, strcmpU_eq_zero_iff, hf, hf']
  · simp [checkOptions]

theorem parseCommand_of_ne (sdk : SDK) (prog argv1 : CStr) (rest : List CStr)
    (o : OPTIONS) (h1 : argv1 ≠ cU "-help") (h2 : argv1 ≠ cU "-?")
    (h3 : argv1 ≠ cU "-v") :
    parseCommand sdk (prog :: argv1 :: rest) o =
      (true, (parseLoop sdk (argv1 :: rest) o).1, (parseLoop sdk (argv1 :: rest) o).2) := by
  simp [parseCommand, strcmpU_eq_zero_iff, h1, h2, h3]

theorem parseLoop_nil (sdk : SDK) (o : OPTIONS) : parseLoop sdk [] o = (o, []) := by
  rw [parseLoop]

/-- C1: for a function name `f` that is `EDI_DATA_INCOMING` or
`EDI_STATUS_INCOMING`, a path `p` of 1 to 100 units and a port `q` of 1 to
10 units, and the three pairs `-F f`, `-E PATHNAME=p`, `-E PORT=q` in any
order after the program name, `parseCommand` returns true with
`options.function = f`, `options.path = p` and `options.port = q`, and
`checkOptions` accepts the resulting options. -/
theorem parseCommand_three_pairs (sdk : SDK) (prog f p q : CStr) (o : OPTIONS)
    (args : List (List CStr))
    (hf : f = cU "EDI_DATA_INCOMING" ∨ f = cU "EDI_STATUS_INCOMING")
    (hp : 1 ≤ strlenU p ∧ strlenU p ≤ 100) (hq : 1 ≤ strlenU q ∧ strlenU q ≤ 10)
    (hargs : args.Perm
      [[cU "-F", f], [cU "-E", cU "PATHNAME=" ++ p], [cU "-E", cU "PORT=" ++ q]]) :
    (parseCommand sdk (prog :: args.flatten) o).1 = true ∧
    (parseCommand sdk (prog :: args.flatten) o).2.1.function = some f ∧
    (parseCommand sdk (prog :: args.flatten) o).2.1.path = some p ∧
    (parseCommand sdk (prog :: args.flatten) o).2.1.port = some q ∧
    (checkOptions (parseCommand sdk (prog :: args.flatten) o).2.1).1 = true := by
  have hF1 : cU "-F" ≠ cU "-help" := by decide
  have hF2 : cU "-F" ≠ cU "-?" := by decide
  have hF3 : cU "-F" ≠ cU "-v" := by decide
  have hE1 : cU "-E" ≠ cU "-help" := by decide
  have hE2 : cU "-E" ≠ cU "-?" := by decide
  have hE3 : cU "-E" ≠ cU "-v" := by decide
  have hpne : p ≠ [] := by
    rintro rfl
    simp [strlenU] at hp
  have hqne : q ≠ [] := by
    rintro rfl
    simp [strlenU] at hq
  have key : ∀ o' : OPTIONS, o'.function = some f → o'.path = some p → o'.port = some q →
      (checkOptions o').1 = true := fun o' h1 h2 h3 =>
    (checkOptions_iff o').2 (Or.inr ⟨⟨f, h1, hf⟩, ⟨p, h2, hpne, hp.2⟩, ⟨q, h3, hqne, hq.2⟩⟩)
  rcases perm_three hargs with rfl | rfl | rfl | rfl | rfl | rfl
  all_goals
    simp only [List.flatten, List.cons_append, List.nil_append, List.append_nil]
    first
      | rw [parseCommand_of_ne sdk prog _ _ o hF1 hF2 hF3]
      | rw [parseCommand_of_ne sdk prog _ _ o hE1 hE2 hE3]
    simp only [parseLoop_F, parseLoop_E_PATHNAME, parseLoop_E_PORT, parseLoop_nil]
    exact ⟨trivial, trivial, trivial, trivial, key _ rfl rfl rfl⟩

/-- C5: `parseCommand` returns false, leaving the options as they were and
showing the version (for `-v`) or the help, when there is no argument after
the program name or the first argument is `-help`, `-?` or `-v`; for every
other argument vector it returns true. -/
theorem parseCommand_returns_false_iff (sdk : SDK) (argv : List CStr) (o : OPTIONS) :
    ((argv.length < 2 ∨ argv[1]? = some (cU "-help") ∨ argv[1]? = some (cU "-?") ∨
        argv[1]? = some (cU "-v")) →
      (parseCommand sdk argv o).1 = false ∧ (parseCommand sdk argv o).2.1 = o ∧
      (parseCommand sdk argv o).2.2 =
        if argv[1]? = some (cU "-v") then showVersion sdk else showHelp) ∧
    (¬ (argv.length < 2 ∨ argv[1]? = some (cU "-help") ∨ argv[1]? = some (cU "-?") ∨
        argv[1]? = some (cU "-v")) →
      (parseCommand sdk argv o).1 = true) := by
  have hv1 : cU "-v" ≠ cU "-help" := by decide
  have hv2 : cU "-v" ≠ cU "-?" := by decide
  have hv3 : cU "-help" ≠ cU "-v" := by decide
  have hv4 : cU "-?" ≠ cU "-v" := by decide
  match argv with
  | [] => simp [parseCommand]
  | [_] => simp [parseCommand]
  | _ :: a :: rest =>
    by_cases h1 : a = cU "-help"
    · subst h1; simp [parseCommand, strcmpU_eq_zero_iff, hv3]
    · by_cases h2 : a = cU "-?"
      · subst h2; simp [parseCommand, strcmpU_eq_zero_iff, hv4]
      · by_cases h3 : a = cU "-v"
        · subst h3; simp [parseCommand, strcmpU_eq_zero_iff, hv1, hv2]
        · simp [parseCommand, strcmpU_eq_zero_iff, h1, h2, h3]

/-! ## The runs of `startRfc` -/

theorem getFunctionDescHandle_run (sdk : SDK) (functionName : CStr) (error : RFC_ERROR_INFO) :
    DescRun functionName (getFunctionDescHandle sdk functionName error).1
      (getFunctionDescHandle sdk functionName error).2.1
      (getFunctionDescHandle sdk functionName error).2.2 := by
  simp only [getFunctionDescHandle]
  generalize sdk.RfcCreateFunctionDesc _ _ = described
  obtain ⟨desc, e1⟩ := described
  generalize sdk.RfcAddParameter _ _ _ = added1
  obtain ⟨rc2, e2⟩ := added1
  generalize sdk.RfcAddParameter _ _ _ = added2
  obtain ⟨rc3, e3⟩ := added2
  simp only []
  by_cases h1 : desc = 0
  · subst h1
    simp only [if_true]
    exact DescRun.createFailed e1
  · by_cases h2 : rc2 = RFC_OK
    · subst h2
      by_cases h3 : rc3 = RFC_OK
      · subst h3
        simp [h1]
        exact DescRun.created desc e1 e2 e3 h1
      · simp [h1, h3]
        exact DescRun.addPortFailed desc e1 e2 rc3 e3 h1 h3
    · simp [h1, h2]
      exact DescRun.addPathnameFailed desc e1 rc2 e2 h1 h2

theorem startRfc_run (sdk : SDK) (o : OPTIONS)
    (hpre : o.showSysInfo = false → o.function.isSome →
      o.path.isSome ∧ o.port.isSome) :
    ∃ rc trace, startRfc sdk o = some (rc, trace) ∧ StartRfcRun sdk o rc trace := by
  rcases hi : o.showSysInfo with _ | _
  · rcases hf : o.function with _ | f
    · simp only [startRfc, startRfcTry, hi, hf]
      generalize sdk.RfcOpenConnection _ _ = opened
      obtain ⟨conn, e0⟩ := opened
      by_cases hc : conn = 0
      · subst hc
        exact ⟨_, _, by simp [errorLine, close], StartRfcRun.openFailed e0⟩
      · exact ⟨_, _, by simp [hc, close],
          StartRfcRun.noFunction conn e0 hc hi hf⟩
    · obtain ⟨hp, hq⟩ := hpre hi (by simp [hf])
      obtain ⟨p, hp⟩ := Option.isSome_iff_exists.1 hp
      obtain ⟨q, hq⟩ := Option.isSome_iff_exists.1 hq
      simp only [startRfc, startRfcTry, hi, hf, hp, hq]
      generalize sdk.RfcOpenConnection _ _ = opened
      obtain ⟨conn, e0⟩ := opened
      simp only []
      have hdr := getFunctionDescHandle_run sdk f e0
      generalize getFunctionDescHandle sdk f e0 = described at hdr ⊢
      obtain ⟨desc, e1, evs⟩ := described
      simp only [] at hdr ⊢
      generalize sdk.RfcCreateFunction _ _ = created
      obtain ⟨func, e2⟩ := created
      generalize sdk.RfcSetChars _ _ _ _ _ = set1
      obtain ⟨rc3, e3⟩ := set1
      generalize sdk.RfcSetChars _ _ _ _ _ = set2
      obtain ⟨rc4, e4⟩ := set2
      generalize sdk.RfcInvoke _ _ _ = inv
      obtain ⟨rc5, e5⟩ := inv
      simp only []
      by_cases hc : conn = 0
      · subst hc
        exact ⟨_, _, by simp [errorLine, close], StartRfcRun.openFailed e0⟩
      · by_cases hd : desc = 0
        · subst hd
          exact ⟨_, _, by simp [hc, close, errorLine],
            StartRfcRun.descFailed conn e0 f e1 evs hc hi hf hdr⟩
        · by_cases hfn : func = 0
          · subst hfn
            exact ⟨_, _, by simp [hc, hd, close, errorLine],
              StartRfcRun.createFailed conn e0 f desc e1 evs e2 hc hi hf hd hdr⟩
          · by_cases h3 : rc3 = RFC_OK
            · subst h3
              by_cases h4 : rc4 = RFC_OK
              · subst h4
                by_cases h5 : rc5 = RFC_OK
                · subst h5
                  exact ⟨_, _, by simp [hc, hd, hfn, close],
                    StartRfcRun.invoked conn e0 f desc e1 evs func e2 p e3 q e4 e5
                      hc hi hf hd hdr hfn hp hq⟩
                · exact ⟨_, _, by simp [hc, hd, hfn, h5, close, errorLine],
                    StartRfcRun.invokeFailed conn e0 f desc e1 evs func e2 p e3 q e4 rc5 e5
                      hc hi hf hd hdr hfn hp hq h5⟩
              · exact ⟨_, _, by simp [hc, hd, hfn, h4, close, errorLine],
                  StartRfcRun.setPortFailed conn e0 f desc e1 evs func e2 p e3 q rc4 e4
                    hc hi hf hd hdr hfn hp hq h4⟩
            · exact ⟨_, _, by simp [hc, hd, hfn, h3, close, errorLine],
                StartRfcRun.setPathnameFailed conn e0 f desc e1 evs func e2 p rc3 e3
                  hc hi hf hd hdr hfn hp h3⟩
  · simp only [startRfc, startRfcTry, hi]
    generalize sdk.RfcOpenConnection _ _ = opened
    obtain ⟨conn, e0⟩ := opened
    generalize sdk.RfcGetConnectionAttributes _ _ = got
    obtain ⟨rc1, attr, e1⟩ := got
    by_cases hc : conn = 0
    · subst hc
      exact ⟨_, _, by simp [errorLine, close], StartRfcRun.openFailed e0⟩
    · by_cases hrc : rc1 = RFC_OK
      · subst hrc
        exact ⟨_, _, by simp [hc, close],
          StartRfcRun.attributesShown conn e0 e1 attr hc hi⟩
      · exact ⟨_, _, by simp [hc, hrc, close, errorLine],
          StartRfcRun.attributesFailed conn e0 rc1 e1 hc hi hrc⟩

theorem firstFailure_eq_none_iff (trace : List Event) :
    firstFailure trace = none ↔ ∀ e ∈ trace, e.failed = false := by
  induction trace with
  | nil => simp [firstFailure]
  | cons a t ih =>
    by_cases h : a.failed = true
    · simp [firstFailure, h]
    · simp [firstFailure, h, ih]

theorem firstFailure_of_split (pre post : List Event) (e : Event)
    (hpre : ∀ x ∈ pre, x.failed = false) (he : e.failed = true) :
    firstFailure (pre ++ e :: post) = some (e, post) := by
  induction pre with
  | nil => simp [firstFailure, he]
  | cons a t ih =>
    have ha : a.failed = false := hpre a (by simp)
    have ht : ∀ x ∈ t, x.failed = false := fun x hx => hpre x (by simp [hx])
    simp [firstFailure, ha, ih ht]

theorem startRfcRun_firstFailure {sdk : SDK} {o : OPTIONS} {rc : RFC_RC}
    {trace : List Event} (h : StartRfcRun sdk o rc trace) :
    (firstFailure trace = none → rc = RFC_OK) ∧
    (∀ e post, firstFailure trace = some (e, post) →
      (∃ info, e.errorInfo = some info ∧ rc = info.code) ∧
      ∀ x ∈ post, x.isPrint = true ∨ x.isCleanup = true) := by
  cases h
  all_goals
    first
      | (cases ‹DescRun _ _ _ _› <;>
          simp_all [firstFailure, Event.failed, Event.errorInfo, Event.isPrint,
            Event.isCleanup, errorLine, showConnAttr, RFC_OK])
      | simp_all [firstFailure, Event.failed, Event.errorInfo, Event.isPrint,
          Event.isCleanup, errorLine, showConnAttr, RFC_OK]

theorem startRfcRun_lifecycle {sdk : SDK} {o : OPTIONS} {rc : RFC_RC}
    {trace : List Event} (h : StartRfcRun sdk o rc trace) :
    Live.run Live.empty trace = some Live.empty := by
  cases h
  all_goals
    first
      | (cases ‹DescRun _ _ _ _› <;>
          simp_all [Live.run, Live.step, Live.empty, errorLine, showConnAttr])
      | simp_all [Live.run, Live.step, Live.empty, errorLine, showConnAttr]

/-! ## The runs of `mainU` -/

theorem parseLoop_events (sdk : SDK) (rest : List CStr) (o : OPTIONS) :
    ∀ e ∈ (parseLoop sdk rest o).2, e.isStartRfcCall = false := by
  induction rest, o using parseLoop.induct sdk
  all_goals
    intro e he
    first
      | rw [parseLoop] at he
      | (rw [parseLoop.eq_def] at he; simp only [] at he)
    simp only [*, if_true, if_false, reduceIte] at he
    first
      | (simp at he; done)
      | (simp at he; subst he; rfl)
      | (rename_i ih; exact ih e he)
      | (rename_i ih
         simp only [List.mem_cons] at he
         rcases he with rfl | he
         · rfl
         · exact ih e he)

theorem showHelp_events : ∀ e ∈ showHelp, e.isStartRfcCall = false := by decide

theorem showVersion_events (sdk : SDK) : ∀ e ∈ showVersion sdk, e.isStartRfcCall = false := by
  simp [showVersion, Event.isStartRfcCall]

theorem parseCommand_events (sdk : SDK) (argv : List CStr) (o : OPTIONS) :
    ∀ e ∈ (parseCommand sdk argv o).2.2, e.isStartRfcCall = false := by
  unfold parseCommand
  split
  · exact showHelp_events
  · exact showHelp_events
  · split_ifs
    · exact showHelp_events
    · exact showVersion_events sdk
    · exact parseLoop_events sdk _ o

theorem checkOptions_cases (o : OPTIONS) :
    ((checkOptions o).1 = true ∧ (checkOptions o).2 = []) ∨
    ((checkOptions o).1 = false ∧ ∃ msg, (checkOptions o).2 = [.printfU msg []]) := by
  obtain ⟨user, passwd, client, language, ashost, sysnr, dest, function, path, port,
    trace, showSysInfo⟩ := o
  cases showSysInfo
  · rcases function with _ | f
    · simp [checkOptions]
    · rcases path with _ | _ | ⟨c, p⟩ <;> rcases port with _ | _ | ⟨d, q⟩ <;>
        simp only [checkOptions] <;> split_ifs <;> simp
  · simp [checkOptions]

theorem checkOptions_events (o : OPTIONS) :
    ∀ e ∈ (checkOptions o).2, e.isStartRfcCall = false := by
  intro e he
  rcases checkOptions_cases o with ⟨_, h⟩ | ⟨_, msg, h⟩
  · simp [h] at he
  · simp [h] at he
    subst he
    rfl

theorem checkOptions_true_events (o : OPTIONS) (h : (checkOptions o).1 = true) :
    (checkOptions o).2 = [] := by
  rcases checkOptions_cases o with ⟨_, h2⟩ | ⟨h1, _⟩
  · exact h2
  · rw [h1] at h
    cases h

theorem checkOptions_present (o : OPTIONS) (h : (checkOptions o).1 = true) :
    o.showSysInfo = false → o.function.isSome → o.path.isSome ∧ o.port.isSome := by
  intro hi _
  rcases (checkOptions_iff o).1 h with h1 | ⟨_, ⟨p, hp, _⟩, ⟨q, hq, _⟩⟩
  · rw [hi] at h1
    cases h1
  · simp [hp, hq]

/-- The three ways `mainU` can go. -/
theorem mainU_cases (sdk : SDK) (argv : List CStr) :
    ((parseCommand sdk argv OPTIONS.zero).1 = false ∧
      mainU sdk argv = some (0, (parseCommand sdk argv OPTIONS.zero).2.2)) ∨
    ((parseCommand sdk argv OPTIONS.zero).1 = true ∧
      (checkOptions (parseCommand sdk argv OPTIONS.zero).2.1).1 = false ∧
      mainU sdk argv = some (1, (parseCommand sdk argv OPTIONS.zero).2.2 ++
        (checkOptions (parseCommand sdk argv OPTIONS.zero).2.1).2 ++ showHelp)) ∨
    ((parseCommand sdk argv OPTIONS.zero).1 = true ∧
      (checkOptions (parseCommand sdk argv OPTIONS.zero).2.1).1 = true ∧
      ∃ rc tr, startRfc sdk (parseCommand sdk argv OPTIONS.zero).2.1 = some (rc, tr) ∧
        StartRfcRun sdk (parseCommand sdk argv OPTIONS.zero).2.1 rc tr ∧
        mainU sdk argv = some ((rc : Int), (parseCommand sdk argv OPTIONS.zero).2.2 ++ tr)) := by
  rcases hp : (parseCommand sdk argv OPTIONS.zero).1 with _ | _
  · left
    simp [mainU, hp]
  · right
    rcases hc : (checkOptions (parseCommand sdk argv OPTIONS.zero).2.1).1 with _ | _
    · left
      simp [mainU, hp, hc]
    · right
      obtain ⟨rc, tr, hs, hrun⟩ :=
        startRfc_run sdk _ (checkOptions_present _ hc)
      refine ⟨rfl, rfl, rc, tr, hs, hrun, ?_⟩
      simp [mainU, hp, hc, hs, checkOptions_true_events _ hc]


theorem startRfcRun_openOnce {sdk : SDK} {o : OPTIONS} {rc : RFC_RC}
    {trace : List Event} (h : StartRfcRun sdk o rc trace) :
    trace.countP Event.isOpenConnection = 1 := by
  cases h
  all_goals
    first
      | (cases ‹DescRun _ _ _ _› <;>
          simp_all [Event.isOpenConnection, errorLine, showConnAttr, List.countP_cons])
      | simp_all [Event.isOpenConnection, errorLine, showConnAttr, List.countP_cons]

theorem startRfcRun_functionCalls {sdk : SDK} {o : OPTIONS} {rc : RFC_RC}
    {trace : List Event} (h : StartRfcRun sdk o rc trace) :
    (∀ name result error, Event.RfcCreateFunctionDesc name result error ∈ trace →
      o.showSysInfo = false ∧ o.function = some name) ∧
    (∀ funcDesc result error, Event.RfcCreateFunction funcDesc result error ∈ trace →
      funcDesc ≠ 0 ∧ ∃ name e, Event.RfcCreateFunctionDesc name funcDesc e ∈ trace) ∧
    (∀ conn func r error, Event.RfcInvoke conn func r error ∈ trace →
      func ≠ 0 ∧ ∃ funcDesc e, Event.RfcCreateFunction funcDesc func e ∈ trace) ∧
    (o.showSysInfo = true → ∀ e ∈ trace, e.isFunctionCall = false) := by
  cases h
  all_goals
    first
      | (cases ‹DescRun _ _ _ _› <;>
          simp_all [Event.isFunctionCall, errorLine, showConnAttr])
      | simp_all [Event.isFunctionCall, errorLine, showConnAttr]

theorem startRfcRun_setChars {sdk : SDK} {o : OPTIONS} {rc : RFC_RC}
    {trace : List Event} (h : StartRfcRun sdk o rc trace) :
    ∀ func name value len r error, Event.RfcSetChars func name value len r error ∈ trace →
      o.showSysInfo = false ∧ len = strlenU value % 2 ^ 32 ∧
      ((name = cU "PATHNAME" ∧ o.path = some value) ∨
       (name = cU "PORT" ∧ o.port = some value)) := by
  cases h
  all_goals
    first
      | (cases ‹DescRun _ _ _ _› <;>
          simp_all [errorLine, showConnAttr] <;>
          rintro _ _ _ _ _ _ (⟨rfl, rfl, rfl, rfl, rfl, rfl⟩ | ⟨rfl, rfl, rfl, rfl, rfl, rfl⟩) <;>
          simp)
      | simp_all [errorLine, showConnAttr]

theorem descRun_of_ne_zero {f : CStr} {funcDesc : RFC_FUNCTION_DESC_HANDLE}
    {e : RFC_ERROR_INFO} {evs : List Event} (h : DescRun f funcDesc e evs)
    (hd : funcDesc ≠ 0) :
    ∃ e1 e2, evs = [.RfcCreateFunctionDesc f funcDesc e1,
      .RfcAddParameter funcDesc parDescPathname RFC_OK e2,
      .RfcAddParameter funcDesc parDescPort RFC_OK e] := by
  cases h
  · exact absurd rfl hd
  · exact absurd rfl hd
  · exact absurd rfl hd
  · exact ⟨_, _, rfl⟩

theorem descRun_no_setChars {f : CStr} {funcDesc : RFC_FUNCTION_DESC_HANDLE}
    {e : RFC_ERROR_INFO} {evs : List Event} (h : DescRun f funcDesc e evs) :
    ∀ func name value len r error, Event.RfcSetChars func name value len r error ∉ evs := by
  cases h <;> simp

theorem startRfcRun_declared {sdk : SDK} {o : OPTIONS} {rc : RFC_RC}
    {trace : List Event} (h : StartRfcRun sdk o rc trace) :
    ∀ func name value len r error, Event.RfcSetChars func name value len r error ∈ trace →
      ∃ funcDesc e2 e3,
        Event.RfcAddParameter funcDesc parDescPathname RFC_OK e2 ∈ trace ∧
        Event.RfcAddParameter funcDesc parDescPort RFC_OK e3 ∈ trace := by
  intro func name value len r error hmem
  cases h with
  | openFailed e0 => simp [errorLine] at hmem
  | attributesFailed conn e0 rc e1 hc hi hrc => simp [errorLine] at hmem
  | attributesShown conn e0 e1 attr hc hi => simp [showConnAttr] at hmem
  | noFunction conn e0 hc hi hf => simp at hmem
  | descFailed conn e0 f e1 evs hc hi hf hdesc =>
    simp [errorLine, descRun_no_setChars hdesc] at hmem
  | createFailed conn e0 f desc e1 evs e2 hc hi hf hd hdesc =>
    simp [errorLine, descRun_no_setChars hdesc] at hmem
  | setPathnameFailed conn e0 f desc e1 evs fn e2 p rc e3 hc hi hf hd hdesc hfn hp hrc =>
    obtain ⟨a, b, rfl⟩ := descRun_of_ne_zero hdesc hd
    exact ⟨desc, b, e1, by simp, by simp⟩
  | setPortFailed conn e0 f desc e1 evs fn e2 p e3 q rc e4 hc hi hf hd hdesc hfn hp hq hrc =>
    obtain ⟨a, b, rfl⟩ := descRun_of_ne_zero hdesc hd
    exact ⟨desc, b, e1, by simp, by simp⟩
  | invokeFailed conn e0 f desc e1 evs fn e2 p e3 q e4 rc e5 hc hi hf hd hdesc hfn hp hq hrc =>
    obtain ⟨a, b, rfl⟩ := descRun_of_ne_zero hdesc hd
    exact ⟨desc, b, e1, by simp, by simp⟩
  | invoked conn e0 f desc e1 evs fn e2 p e3 q e4 e5 hc hi hf hd hdesc hfn hp hq =>
    obtain ⟨a, b, rfl⟩ := descRun_of_ne_zero hdesc hd
    exact ⟨desc, b, e1, by simp, by simp⟩


/-! ## The claims -/

theorem startRfcRun_result {sdk : SDK} {o : OPTIONS} {rc : RFC_RC}
    {trace : List Event} (h : StartRfcRun sdk o rc trace) :
    ((∀ e ∈ trace, e.failed = false) → rc = RFC_OK) ∧
    (∀ pre e post, trace = pre ++ e :: post → (∀ x ∈ pre, x.failed = false) →
      e.failed = true →
      (∃ info, e.errorInfo = some info ∧ rc = info.code) ∧
      ∀ x ∈ post, x.isPrint = true ∨ x.isCleanup = true) := by
  refine ⟨fun hall => (startRfcRun_firstFailure h).1 ((firstFailure_eq_none_iff trace).2 hall), ?_⟩
  intro pre e post ht hpre he
  exact (startRfcRun_firstFailure h).2 e post (ht ▸ firstFailure_of_split pre post e hpre he)

/-- C4 (as amended): if `path` and `port` are present whenever `showSysInfo`
is unset and `function` is present (as in every value `checkOptions`
accepts), then for every behaviour of the library `startRfc` returns; it
returns `RFC_OK` when no call it makes fails; otherwise it returns the code of
the error left by the first failing call, and every effect after that call is
the error line or one of the release calls that `close` makes. -/
theorem startRfc_returns_first_error (sdk : SDK) (o : OPTIONS)
    (hpre : o.showSysInfo = false → o.function.isSome →
      o.path.isSome ∧ o.port.isSome) :
    ∃ rc trace, startRfc sdk o = some (rc, trace) ∧
      ((∀ e ∈ trace, e.failed = false) → rc = RFC_OK) ∧
      (∀ pre e post, trace = pre ++ e :: post → (∀ x ∈ pre, x.failed = false) →
        e.failed = true →
        (∃ info, e.errorInfo = some info ∧ rc = info.code) ∧
        ∀ x ∈ post, x.isPrint = true ∨ x.isCleanup = true) := by
  obtain ⟨rc, trace, hs, hrun⟩ := startRfc_run sdk o hpre
  exact ⟨rc, trace, hs, (startRfcRun_result hrun)⟩

/-- C4, an instance: with a library that fails to add the `PORT` parameter
(code 17), `startRfc` on accepted options returns 17. -/
theorem startRfc_returns_first_error_witness :
    startRfc sdkAddPortFails optionsEdi ≠ none ∧
    ∃ rc trace, startRfc sdkAddPortFails optionsEdi = some (rc, trace) ∧
      ((∀ e ∈ trace, e.failed = false) → rc = RFC_OK) ∧
      (∀ pre e post, trace = pre ++ e :: post → (∀ x ∈ pre, x.failed = false) →
        e.failed = true →
        (∃ info, e.errorInfo = some info ∧ rc = info.code) ∧
        ∀ x ∈ post, x.isPrint = true ∨ x.isCleanup = true) :=
  ⟨by decide, startRfc_returns_first_error sdkAddPortFails optionsEdi (by decide)⟩

/-- C4 as stated fails: with `function` set and `path` null, and a library
whose every call succeeds, `startRfc` takes the length of a null string
instead of returning `RFC_OK`. -/
theorem startRfc_null_path_undefined :
    ¬ ∃ rc trace,
      startRfc sdkAllOk { OPTIONS.zero with function := some (cU "EDI_DATA_INCOMING") } =
        some (rc, trace) ∧
      ((∀ e ∈ trace, e.failed = false) → rc = RFC_OK) := by
  rintro ⟨rc, trace, h, _⟩
  have hnone : startRfc sdkAllOk
      { OPTIONS.zero with function := some (cU "EDI_DATA_INCOMING") } = none := by decide
  rw [hnone] at h
  cases h

/-- C9 (as amended): if `path` and `port` are present whenever `showSysInfo`
is unset and `function` is present, then for every behaviour of the library
`startRfc` returns and its trace keeps the handle discipline of `Live.step`:
a handle is used or released only while it is live, and when `startRfc`
returns no handle is live, so each handle that was created was released
exactly once. -/
theorem startRfc_open_before_use_close_before_exit (sdk : SDK) (o : OPTIONS)
    (hpre : o.showSysInfo = false → o.function.isSome →
      o.path.isSome ∧ o.port.isSome) :
    ∃ rc trace, startRfc sdk o = some (rc, trace) ∧
      Live.run Live.empty trace = some Live.empty := by
  obtain ⟨rc, trace, hs, hrun⟩ := startRfc_run sdk o hpre
  exact ⟨rc, trace, hs, (startRfcRun_lifecycle hrun)⟩

/-- C9, an instance: the run in which adding the `PORT` parameter fails, so
that the description is destroyed inside `getFunctionDescHandle` and not
again by `close`. -/
theorem startRfc_open_before_use_close_before_exit_witness :
    (startRfc sdkAddPortFails optionsEdi).map (fun r => r.2.count (.RfcDestroyFunctionDesc 2))
      = some 1 ∧
    ∃ rc trace, startRfc sdkAddPortFails optionsEdi = some (rc, trace) ∧
      Live.run Live.empty trace = some Live.empty :=
  ⟨by decide, startRfc_open_before_use_close_before_exit sdkAddPortFails optionsEdi (by decide)⟩

/-- C9 as stated fails: with `function` and `path` set and `port` null, and
a library whose every call succeeds, the connection, the description and the
function are created and `startRfc` then takes the length of a null string;
it does not return with the handles released. -/
theorem startRfc_null_port_undefined :
    ¬ ∃ rc trace,
      startRfc sdkAllOk
        { OPTIONS.zero with
          function := some (cU "EDI_STATUS_INCOMING"), path := some (cU "/tmp/status.txt") } =
        some (rc, trace) ∧
      Live.run Live.empty trace = some Live.empty := by
  rintro ⟨rc, trace, h, _⟩
  have hnone : startRfc sdkAllOk
      { OPTIONS.zero with
        function := some (cU "EDI_STATUS_INCOMING"), path := some (cU "/tmp/status.txt") } =
      none := by decide
  rw [hnone] at h
  cases h


theorem not_functionCall_of_not_call {e : Event} (h : e.isStartRfcCall = false) :
    e.isFunctionCall = false := by
  cases e <;> simp_all [Event.isStartRfcCall, Event.isFunctionCall]

theorem countP_open_of_not_call (l : List Event) (h : ∀ e ∈ l, e.isStartRfcCall = false) :
    l.countP Event.isOpenConnection = 0 := by
  rw [List.countP_eq_zero]
  intro e he
  have := h e he
  cases e <;> simp_all [Event.isStartRfcCall, Event.isOpenConnection]

/-- The trace of `mainU`: what `parseCommand`, `checkOptions` and `showHelp`
print (with the trace levels set), followed by a run of `startRfc` if the
options were accepted. -/
theorem mainU_trace (sdk : SDK) (argv : List CStr) :
    ∃ status trace pre, mainU sdk argv = some (status, trace) ∧
      (∀ e ∈ pre, e.isStartRfcCall = false) ∧
      (trace = pre ∨
        ((parseCommand sdk argv OPTIONS.zero).1 = true ∧
          (checkOptions (parseCommand sdk argv OPTIONS.zero).2.1).1 = true ∧
          ∃ rc tr, StartRfcRun sdk (parseCommand sdk argv OPTIONS.zero).2.1 rc tr ∧
            trace = pre ++ tr)) := by
  rcases mainU_cases sdk argv with ⟨_, hm⟩ | ⟨_, _, hm⟩ | ⟨hp, hc, rc, tr, _, hrun, hm⟩
  · exact ⟨_, _, _, hm, parseCommand_events sdk argv _, Or.inl rfl⟩
  · refine ⟨_, _, _, hm, ?_, Or.inl rfl⟩
    intro e he
    simp only [List.mem_append] at he
    rcases he with (he | he) | he
    · exact parseCommand_events sdk argv _ e he
    · exact checkOptions_events _ e he
    · exact showHelp_events e he
  · exact ⟨_, _, _, hm, parseCommand_events sdk argv _, Or.inr ⟨hp, hc, rc, tr, hrun, rfl⟩⟩

/-- C3: for every argument vector and every behaviour of the library `mainU`
returns an exit status: 0 when `parseCommand` returns false; 1 when
`parseCommand` returns true and `checkOptions` rejects the options, and then
no call of `startRfc` is in the trace; otherwise the code returned by
`startRfc`, which is 0 (`RFC_OK`) when no call fails and else the code of the
error left by the first failing call. -/
theorem mainU_exit_status (sdk : SDK) (argv : List CStr) :
    ∃ status trace, mainU sdk argv = some (status, trace) ∧
      ((parseCommand sdk argv OPTIONS.zero).1 = false → status = 0) ∧
      ((parseCommand sdk argv OPTIONS.zero).1 = true →
        (checkOptions (parseCommand sdk argv OPTIONS.zero).2.1).1 = false →
        status = 1 ∧ ∀ e ∈ trace, e.isStartRfcCall = false) ∧
      ((parseCommand sdk argv OPTIONS.zero).1 = true →
        (checkOptions (parseCommand sdk argv OPTIONS.zero).2.1).1 = true →
        ∃ rc tr, startRfc sdk (parseCommand sdk argv OPTIONS.zero).2.1 = some (rc, tr) ∧
          status = (rc : Int) ∧
          ((∀ e ∈ tr, e.failed = false) → status = 0) ∧
          (∀ pre e post, tr = pre ++ e :: post → (∀ x ∈ pre, x.failed = false) →
            e.failed = true →
            ∃ info, e.errorInfo = some info ∧ status = (info.code : Int))) := by
  rcases mainU_cases sdk argv with ⟨hp, hm⟩ | ⟨hp, hc, hm⟩ | ⟨hp, hc, rc, tr, hs, hrun, hm⟩
  · refine ⟨_, _, hm, fun _ => rfl, ?_, ?_⟩
    · intro h; rw [hp] at h; cases h
    · intro h; rw [hp] at h; cases h
  · refine ⟨_, _, hm, ?_, ?_, ?_⟩
    · intro h; rw [hp] at h; cases h
    · intro _ _
      refine ⟨rfl, ?_⟩
      intro e he
      simp only [List.mem_append] at he
      rcases he with (he | he) | he
      · exact parseCommand_events sdk argv _ e he
      · exact checkOptions_events _ e he
      · exact showHelp_events e he
    · intro _ h; rw [hc] at h; cases h
  · refine ⟨_, _, hm, ?_, ?_, ?_⟩
    · intro h; rw [hp] at h; cases h
    · intro _ h; rw [hc] at h; cases h
    · intro _ _
      refine ⟨rc, tr, hs, rfl, ?_, ?_⟩
      · intro hall
        have := (startRfcRun_result hrun).1 hall
        simp [this, RFC_OK]
      · intro pre e post ht hpre he
        obtain ⟨⟨info, hi, hcode⟩, _⟩ := (startRfcRun_result hrun).2 pre e post ht hpre he
        exact ⟨info, hi, by rw [hcode]⟩

/-- C3, three instances: `-v` alone gives 0; a command line without `-F`
gives 1; an accepted command line for which adding the `PORT` parameter fails with
code 17 gives 17, the code of the error. -/
theorem mainU_exit_status_witness :
    (mainU sdkAllOk [cU "startrfc", cU "-v"]).map Prod.fst = some 0 ∧
    (mainU sdkAllOk [cU "startrfc", cU "-h", cU "host"]).map Prod.fst = some 1 ∧
    (mainU sdkAddPortFails argvEdi).map Prod.fst = some 17 ∧
    ∃ status trace, mainU sdkAddPortFails argvEdi = some (status, trace) ∧
      ∃ rc tr,
        startRfc sdkAddPortFails (parseCommand sdkAddPortFails argvEdi OPTIONS.zero).2.1 =
          some (rc, tr) ∧ status = (rc : Int) := by
  refine ⟨by decide, by decide, by decide, ?_⟩
  obtain ⟨status, trace, hm, _, _, h3⟩ := mainU_exit_status sdkAddPortFails argvEdi
  obtain ⟨rc, tr, hs, hst, _⟩ := h3 (by decide) (by decide)
  exact ⟨status, trace, hm, rc, tr, hs, hst⟩


theorem takesValue_iff (arg : CStr) :
    takesValue arg = true ↔
      (arg = cU "-h" ∨ arg = cU "-s" ∨ arg = cU "-u" ∨ arg = cU "-p" ∨ arg = cU "-c" ∨
        arg = cU "-l" ∨ arg = cU "-D" ∨ arg = cU "-F" ∨ arg = cU "-E" ∨ arg = cU "-t") := by
  simp [takesValue]

theorem valueOptions_ne_i :
    cU "-h" ≠ cU "-i" ∧ cU "-s" ≠ cU "-i" ∧ cU "-u" ≠ cU "-i" ∧ cU "-p" ≠ cU "-i" ∧
    cU "-c" ≠ cU "-i" ∧ cU "-l" ≠ cU "-i" ∧ cU "-D" ≠ cU "-i" ∧ cU "-F" ≠ cU "-i" ∧
    cU "-E" ≠ cU "-i" ∧ cU "-t" ≠ cU "-i" := by decide

theorem parseLoop_showSysInfo (sdk : SDK) (rest : List CStr) (o : OPTIONS) :
    (parseLoop sdk rest o).1.showSysInfo = showSysInfoAfter rest o.showSysInfo := by
  have hne := valueOptions_ne_i
  induction rest, o using parseLoop.induct sdk
  all_goals
    first
      | rw [parseLoop]
      | (rw [parseLoop.eq_def]; simp only [])
    simp only [*, if_true, if_false, reduceIte]
    try simp only [strcmpU_eq_zero_iff] at *
    try subst_vars
    first
      | simp [showSysInfoAfter, takesValue_iff, *]
      | (rename_i rest _ _; cases rest <;> simp_all [showSysInfoAfter, takesValue_iff])
      | (rename_i rest _ _ _ _ _ _ _ _ _ _ _ _ _; cases rest <;> simp_all [showSysInfoAfter, takesValue_iff])

theorem showSysInfoAfter_of_true (rest : List CStr) (b : Bool) :
    b = true → showSysInfoAfter rest b = true := by
  induction rest, b using showSysInfoAfter.induct
  all_goals
    intro hb
    simp_all [showSysInfoAfter]

theorem showSysInfoAfter_head_i (rest : List CStr) (b : Bool) :
    showSysInfoAfter (cU "-i" :: rest) b = true := by
  cases rest with
  | nil => simp [showSysInfoAfter]
  | cons v rest => simp [showSysInfoAfter, showSysInfoAfter_of_true]

theorem showSysInfoAfter_reads_i (rest : List CStr) (i : Nat) :
    ∀ b, readAsOption rest i = true → rest[i]? = some (cU "-i") →
      showSysInfoAfter rest b = true := by
  induction rest, i using readAsOption.induct with
  | case1 x => intro b h; simp [readAsOption] at h
  | case2 head tail =>
    intro b _ hi
    simp at hi
    subst hi
    exact showSysInfoAfter_head_i tail b
  | case3 head n => intro b h; simp [readAsOption] at h
  | case4 arg head tail =>
    intro b hr hi
    simp at hi
    subst hi
    simp [readAsOption] at hr
    by_cases ha : arg = cU "-i"
    · subst ha
      exact showSysInfoAfter_head_i _ b
    · simp [showSysInfoAfter, ha, hr, showSysInfoAfter_head_i]
  | case5 arg v rest i ht ih =>
    intro b hr hi
    simp [readAsOption, ht] at hr
    have hi' : rest[i]? = some (cU "-i") := by simpa using hi
    by_cases ha : arg = cU "-i"
    · subst ha
      exact showSysInfoAfter_head_i _ b
    · simp [showSysInfoAfter, ha, ht, ih b hr hi']
  | case6 arg v rest i ht ih =>
    intro b hr hi
    simp [readAsOption, ht] at hr
    have hi' : (v :: rest)[i + 1]? = some (cU "-i") := by simpa using hi
    by_cases ha : arg = cU "-i"
    · subst ha
      exact showSysInfoAfter_head_i _ b
    · simp [showSysInfoAfter, ha, ht, ih b hr hi']

/-- An `-i` that the loop of `parseCommand` reads as an option sets
`showSysInfo`. -/
theorem parseLoop_reads_i (sdk : SDK) (rest : List CStr) (o : OPTIONS) (i : Nat)
    (hr : readAsOption rest i = true) (hi : rest[i]? = some (cU "-i")) :
    (parseLoop sdk rest o).1.showSysInfo = true := by
  rw [parseLoop_showSysInfo]
  exact showSysInfoAfter_reads_i rest i _ hr hi


theorem parseCommand_true_options (sdk : SDK) (argv : List CStr) (o : OPTIONS)
    (h : (parseCommand sdk argv o).1 = true) :
    (parseCommand sdk argv o).2.1 = (parseLoop sdk argv.tail o).1 ∧
    (parseCommand sdk argv o).2.2 = (parseLoop sdk argv.tail o).2 := by
  unfold parseCommand at h ⊢
  split at h
  · cases h
  · cases h
  · split_ifs at h ⊢
    exact ⟨rfl, rfl⟩

theorem parseCommand_false_events (sdk : SDK) (argv : List CStr) (o : OPTIONS)
    (h : (parseCommand sdk argv o).1 = false) :
    (parseCommand sdk argv o).2.2 = showHelp ∨
    (parseCommand sdk argv o).2.2 = showVersion sdk := by
  unfold parseCommand at h ⊢
  split at h
  · exact Or.inl rfl
  · exact Or.inl rfl
  · split_ifs at h ⊢
    · exact Or.inl rfl
    · exact Or.inr rfl

theorem traceLevels_parseLoop (sdk : SDK) (rest : List CStr) (o : OPTIONS) :
    ∀ level ∈ traceLevels (parseLoop sdk rest o).2,
      ∃ i v, rest[i]? = some (cU "-t") ∧ rest[i + 1]? = some v ∧
        level = (sdk.atoiU v % 2 ^ 32).toNat := by
  induction rest, o using parseLoop.induct sdk
  all_goals
    intro level hl
    first
      | rw [parseLoop] at hl
      | (rw [parseLoop.eq_def] at hl; simp only [] at hl)
    simp only [*, if_true, if_false, reduceIte] at hl
    first
      | (simp [traceLevels] at hl; done)
      | (rename_i ih
         simp only [traceLevels, List.filterMap_cons, List.mem_cons] at hl
         rcases hl with rfl | hl
         · exact ⟨0, _, by simp_all [strcmpU_eq_zero_iff], by simp, rfl⟩
         · obtain ⟨i, v, h1, h2, h3⟩ := ih level hl
           exact ⟨i + 2, v, by simpa using h1, by simpa using h2, h3⟩)
      | (rename_i ih; obtain ⟨i, v, h1, h2, h3⟩ := ih level hl
         first
           | exact ⟨i + 1, v, by simpa using h1, by simpa using h2, h3⟩
           | exact ⟨i + 2, v, by simpa using h1, by simpa using h2, h3⟩)

/-- C6 (as amended): every trace level that `parseCommand` hands to
`RfcSetTraceLevel` is `atoiU` of an argument that follows a `-t`, converted
to `unsigned`; no range check is made, and the level is one of 0 to 4
whenever that number is. -/
theorem parseCommand_traceLevel (sdk : SDK) (argv : List CStr) (o : OPTIONS) :
    ∀ level ∈ traceLevels (parseCommand sdk argv o).2.2,
      ∃ i v, 1 ≤ i ∧ argv[i]? = some (cU "-t") ∧ argv[i + 1]? = some v ∧
        level = (sdk.atoiU v % 2 ^ 32).toNat ∧
        (0 ≤ sdk.atoiU v ∧ sdk.atoiU v ≤ 4 → level ∈ [0, 1, 2, 3, 4]) := by
  intro level hl
  rcases hp : (parseCommand sdk argv o).1 with _ | _
  · exfalso
    have hnil : traceLevels showHelp = [] := by decide
    rcases parseCommand_false_events sdk argv o hp with h | h
    · simp [h, hnil] at hl
    · simp [h, showVersion, traceLevels] at hl
  · rw [(parseCommand_true_options sdk argv o hp).2] at hl
    obtain ⟨i, v, h1, h2, h3⟩ := traceLevels_parseLoop sdk argv.tail o level hl
    cases argv with
    | nil => simp at h1
    | cons a rest =>
      refine ⟨i + 1, v, by omega, by simpa using h1, by simpa using h2, h3, ?_⟩
      rintro ⟨h0, h4⟩
      have : (sdk.atoiU v % 2 ^ 32).toNat = (sdk.atoiU v).toNat := by
        rw [Int.emod_eq_of_lt h0 (by omega)]
      rw [h3, this]
      have h5 : (sdk.atoiU v).toNat ≤ 4 := by omega
      interval_cases h6 : (sdk.atoiU v).toNat <;> simp

/-- C6, an instance: `-t 3` sets trace level 3. -/
theorem parseCommand_traceLevel_witness :
    3 ∈ traceLevels (parseCommand sdkAllOk [cU "startrfc", cU "-t", cU "3"] OPTIONS.zero).2.2 ∧
    ∃ i v, 1 ≤ i ∧ [cU "startrfc", cU "-t", cU "3"][i]? = some (cU "-t") ∧
      [cU "startrfc", cU "-t", cU "3"][i + 1]? = some v ∧
      3 = (sdkAllOk.atoiU v % 2 ^ 32).toNat ∧
      (0 ≤ sdkAllOk.atoiU v ∧ sdkAllOk.atoiU v ≤ 4 → 3 ∈ [0, 1, 2, 3, 4]) :=
  ⟨by decide,
   parseCommand_traceLevel sdkAllOk [cU "startrfc", cU "-t", cU "3"] OPTIONS.zero 3 (by decide)⟩

/-- C6 as stated fails: `-t 7` hands trace level 7 to `RfcSetTraceLevel`. -/
theorem parseCommand_traceLevel_seven :
    ¬ ∀ level ∈
        traceLevels (parseCommand sdkAllOk [cU "startrfc", cU "-t", cU "7"] OPTIONS.zero).2.2,
      level ∈ [0, 1, 2, 3, 4] := by
  decide


/-- C7: for every argument vector and every behaviour of the library, a
run of `mainU` opens at most one connection; every function description it
creates is named `EDI_DATA_INCOMING` or `EDI_STATUS_INCOMING`; every function
it creates comes from such a description and every function it invokes was
created that way; and when an `-i` is read as an option no function is
described, created, filled or invoked. -/
theorem mainU_one_connection_two_functions (sdk : SDK) (argv : List CStr) :
    ∃ status trace, mainU sdk argv = some (status, trace) ∧
      trace.countP Event.isOpenConnection ≤ 1 ∧
      (∀ name result error, Event.RfcCreateFunctionDesc name result error ∈ trace →
        name = cU "EDI_DATA_INCOMING" ∨ name = cU "EDI_STATUS_INCOMING") ∧
      (∀ funcDesc result error, Event.RfcCreateFunction funcDesc result error ∈ trace →
        funcDesc ≠ 0 ∧ ∃ name e, Event.RfcCreateFunctionDesc name funcDesc e ∈ trace) ∧
      (∀ conn func r error, Event.RfcInvoke conn func r error ∈ trace →
        func ≠ 0 ∧ ∃ funcDesc e, Event.RfcCreateFunction funcDesc func e ∈ trace) ∧
      ((parseCommand sdk argv OPTIONS.zero).2.1.showSysInfo = true →
        ∀ e ∈ trace, e.isFunctionCall = false) ∧
      (∀ i, readAsOption argv.tail i = true → argv.tail[i]? = some (cU "-i") →
        ∀ e ∈ trace, e.isFunctionCall = false) := by
  obtain ⟨status, trace, pre, hm, hpre, h⟩ := mainU_trace sdk argv
  refine ⟨status, trace, hm, ?_⟩
  rcases h with rfl | ⟨hp, hc, rc, tr, hrun, rfl⟩
  · refine ⟨?_, ?_, ?_, ?_, ?_, ?_⟩
    · rw [countP_open_of_not_call _ hpre]; omega
    · intro name result error hmem
      have := hpre _ hmem
      simp [Event.isStartRfcCall] at this
    · intro funcDesc result error hmem
      have := hpre _ hmem
      simp [Event.isStartRfcCall] at this
    · intro conn func r error hmem
      have := hpre _ hmem
      simp [Event.isStartRfcCall] at this
    · intro _ e he
      exact not_functionCall_of_not_call (hpre e he)
    · intro _ _ _ e he
      exact not_functionCall_of_not_call (hpre e he)
  · have hnot : ∀ e ∈ pre, e.isFunctionCall = false := fun e he =>
      not_functionCall_of_not_call (hpre e he)
    obtain ⟨h1, h2, h3, h4⟩ := (startRfcRun_functionCalls hrun)
    have hinfo : (parseCommand sdk argv OPTIONS.zero).2.1.showSysInfo = true →
        ∀ e ∈ pre ++ tr, e.isFunctionCall = false := by
      intro hi e he
      rcases List.mem_append.1 he with he | he
      · exact hnot e he
      · exact h4 hi e he
    refine ⟨?_, ?_, ?_, ?_, hinfo, ?_⟩
    · rw [List.countP_append, countP_open_of_not_call _ hpre, (startRfcRun_openOnce hrun)]
    · intro name result error hmem
      rcases List.mem_append.1 hmem with hmem | hmem
      · have := hpre _ hmem
        simp [Event.isStartRfcCall] at this
      · obtain ⟨hi, hf⟩ := h1 name result error hmem
        rcases (checkOptions_iff _).1 hc with hs | ⟨⟨f, hf', hname⟩, _⟩
        · rw [hi] at hs; cases hs
        · rw [hf] at hf'
          cases hf'
          exact hname
    · intro funcDesc result error hmem
      rcases List.mem_append.1 hmem with hmem | hmem
      · have := hpre _ hmem
        simp [Event.isStartRfcCall] at this
      · obtain ⟨hd, name, e, hmem'⟩ := h2 funcDesc result error hmem
        exact ⟨hd, name, e, List.mem_append_right _ hmem'⟩
    · intro conn func r error hmem
      rcases List.mem_append.1 hmem with hmem | hmem
      · have := hpre _ hmem
        simp [Event.isStartRfcCall] at this
      · obtain ⟨hd, funcDesc, e, hmem'⟩ := h3 conn func r error hmem
        exact ⟨hd, funcDesc, e, List.mem_append_right _ hmem'⟩
    · intro i hr hi
      apply hinfo
      rw [(parseCommand_true_options sdk argv OPTIONS.zero hp).1]
      exact parseLoop_reads_i sdk argv.tail OPTIONS.zero i hr hi

/-- C7, an instance: `-F BOGUS -i` with a library whose every call succeeds:
the `-i` at position 2 is read as an option, one connection is opened and no
function call is made. -/
theorem mainU_one_connection_two_functions_witness :
    (mainU sdkAllOk [cU "startrfc", cU "-F", cU "BOGUS", cU "-i"]).map
      (fun r => r.2.countP Event.isOpenConnection) = some 1 ∧
    ∃ status trace,
      mainU sdkAllOk [cU "startrfc", cU "-F", cU "BOGUS", cU "-i"] = some (status, trace) ∧
      ∀ e ∈ trace, e.isFunctionCall = false := by
  refine ⟨by decide, ?_⟩
  obtain ⟨status, trace, hm, _, _, _, _, _, h⟩ :=
    mainU_one_connection_two_functions sdkAllOk [cU "startrfc", cU "-F", cU "BOGUS", cU "-i"]
  exact ⟨status, trace, hm, h 2 (by decide) (by decide)⟩


/-- C10: for every argument vector and every behaviour of the library,
`mainU` is defined (it never takes the length of a null string), and every
`RfcSetChars` call in its trace passes the string that `options.path`
(for `PATHNAME`) or `options.port` (for `PORT`) points at, with its length,
which lies in 1..100 for `PATHNAME` and 1..10 for `PORT`: within the lengths
declared by the parameter descriptions added in `getFunctionDescHandle`. -/
theorem mainU_setChars_lengths (sdk : SDK) (argv : List CStr) :
    ∃ status trace, mainU sdk argv = some (status, trace) ∧
      ∀ func name value len r error,
        Event.RfcSetChars func name value len r error ∈ trace →
          len = strlenU value ∧
          ((name = cU "PATHNAME" ∧
              (parseCommand sdk argv OPTIONS.zero).2.1.path = some value ∧
              1 ≤ len ∧ len ≤ 100 ∧ len ≤ parDescPathname.nucLength) ∨
           (name = cU "PORT" ∧
              (parseCommand sdk argv OPTIONS.zero).2.1.port = some value ∧
              1 ≤ len ∧ len ≤ 10 ∧ len ≤ parDescPort.nucLength)) ∧
          ∃ funcDesc e2 e3,
            Event.RfcAddParameter funcDesc parDescPathname RFC_OK e2 ∈ trace ∧
            Event.RfcAddParameter funcDesc parDescPort RFC_OK e3 ∈ trace := by
  obtain ⟨status, trace, pre, hm, hpre, h⟩ := mainU_trace sdk argv
  refine ⟨status, trace, hm, ?_⟩
  intro func name value len r error hmem
  rcases h with rfl | ⟨hp, hc, rc, tr, hrun, rfl⟩
  · have := hpre _ hmem
    simp [Event.isStartRfcCall] at this
  · rcases List.mem_append.1 hmem with hmem | hmem
    · have := hpre _ hmem
      simp [Event.isStartRfcCall] at this
    · obtain ⟨hi, hlen, hname⟩ := startRfcRun_setChars hrun func name value len r error hmem
      obtain ⟨funcDesc, e2, e3, ha1, ha2⟩ := startRfcRun_declared hrun func name value len r error hmem
      rcases (checkOptions_iff _).1 hc with hs | ⟨_, ⟨p, hpath, hpne, hplen⟩, ⟨q, hport, hqne, hqlen⟩⟩
      · rw [hi] at hs; cases hs
      · have hp1 : 1 ≤ strlenU p := by
          cases p with
          | nil => exact absurd rfl hpne
          | cons c p => simp [strlenU]
        have hq1 : 1 ≤ strlenU q := by
          cases q with
          | nil => exact absurd rfl hqne
          | cons c q => simp [strlenU]
        refine ⟨?_, ?_, funcDesc, e2, e3, List.mem_append_right _ ha1,
          List.mem_append_right _ ha2⟩
        · rcases hname with ⟨_, hv⟩ | ⟨_, hv⟩
          · rw [hpath] at hv; cases hv
            rw [hlen]; exact Nat.mod_eq_of_lt (by omega)
          · rw [hport] at hv; cases hv
            rw [hlen]; exact Nat.mod_eq_of_lt (by omega)
        · rcases hname with ⟨hn, hv⟩ | ⟨hn, hv⟩
          · left
            rw [hpath] at hv; cases hv
            have : len = strlenU value := by rw [hlen]; exact Nat.mod_eq_of_lt (by omega)
            refine ⟨hn, hpath, by omega, by omega, ?_⟩
            show len ≤ 100
            omega
          · right
            rw [hport] at hv; cases hv
            have : len = strlenU value := by rw [hlen]; exact Nat.mod_eq_of_lt (by omega)
            refine ⟨hn, hport, by omega, by omega, ?_⟩
            show len ≤ 10
            omega

/-- C10, an instance: the accepted command line `argvEdi` with a library
whose every call succeeds reaches both `RfcSetChars` calls; the one for
`PATHNAME` passes the 13 units of `/tmp/idoc.txt`. -/
theorem mainU_setChars_lengths_witness :
    (mainU sdkAllOk argvEdi).map (fun r => decide
      (Event.RfcSetChars 3 (cU "PATHNAME") (cU "/tmp/idoc.txt") 13 RFC_OK
        { code := 0, message := [] } ∈ r.2)) = some true ∧
    ∃ status trace, mainU sdkAllOk argvEdi = some (status, trace) ∧
      ∀ func name value len r error,
        Event.RfcSetChars func name value len r error ∈ trace →
          len = strlenU value ∧
          ((name = cU "PATHNAME" ∧
              (parseCommand sdkAllOk argvEdi OPTIONS.zero).2.1.path = some value ∧
              1 ≤ len ∧ len ≤ 100 ∧ len ≤ parDescPathname.nucLength) ∨
           (name = cU "PORT" ∧
              (parseCommand sdkAllOk argvEdi OPTIONS.zero).2.1.port = some value ∧
              1 ≤ len ∧ len ≤ 10 ∧ len ≤ parDescPort.nucLength)) ∧
          ∃ funcDesc e2 e3,
            Event.RfcAddParameter funcDesc parDescPathname RFC_OK e2 ∈ trace ∧
            Event.RfcAddParameter funcDesc parDescPort RFC_OK e3 ∈ trace :=
  ⟨by decide, mainU_setChars_lengths sdkAllOk argvEdi⟩

end StartRfc

namespace ServerMonitorSample

open StartRfc

theorem afterFirst_append_of_none (p : Event → Bool) (a b : List Event)
    (h : ∀ x ∈ a, p x = false) : afterFirst p (a ++ b) = afterFirst p b := by
  induction a with
  | nil => rfl
  | cons x a ih =>
    have hx : p x = false := h x (by simp)
    have ha : ∀ y ∈ a, p y = false := fun y hy => h y (by simp [hy])
    simp [afterFirst, hx, ih ha]

theorem RfcSleep_quiet (milliSec : Nat) :
    ∀ x ∈ RfcSleep milliSec, x.checkedFailure = false ∧ x.isSdkCall = false := by
  intro x hx
  simp only [RfcSleep] at hx
  split_ifs at hx <;> simp at hx <;> rcases hx with rfl | rfl <;> exact ⟨rfl, rfl⟩

theorem errorHandling_quiet (description : CStr) (errorInfo : RFC_ERROR_INFO) :
    ∀ x ∈ errorHandling description errorInfo, x.isSdkCall = false := by
  intro x hx
  simp [errorHandling] at hx
  subst hx
  rfl

theorem shutdown_checked (sdk : SDK) (serverHandle : RFC_SERVER_HANDLE)
    (errorInfo : RFC_ERROR_INFO) (post : List Event)
    (h : afterFirst Event.checkedFailure (shutdown sdk serverHandle errorInfo).2 = some post) :
    (shutdown sdk serverHandle errorInfo).1 = .exited 1 ∧ ∀ x ∈ post, x.isSdkCall = false := by
  simp only [shutdown] at h ⊢
  generalize sdk.RfcShutdownServer _ _ _ = stopped at h ⊢
  obtain ⟨rc, e⟩ := stopped
  by_cases hrc : rc = RFC_OK
  · subst hrc
    simp [afterFirst, Event.checkedFailure] at h
  · simp [afterFirst, Event.checkedFailure, hrc] at h ⊢
    subst h
    exact errorHandling_quiet _ _

theorem monitorLoop_checked (sdk : SDK) (serverHandle : RFC_SERVER_HANDLE) (polls : Nat) :
    ∀ (poll : Nat) (errorInfo : RFC_ERROR_INFO) (post : List Event),
      afterFirst Event.checkedFailure (monitorLoop sdk serverHandle polls poll errorInfo).2 =
        some post →
      (monitorLoop sdk serverHandle polls poll errorInfo).1 = .exited 1 ∧
      ∀ x ∈ post, x.isSdkCall = false := by
  induction polls with
  | zero =>
    intro poll errorInfo post h
    simp [monitorLoop, afterFirst] at h
  | succ polls ih =>
    intro poll errorInfo post h
    rw [monitorLoop] at h ⊢
    have hrun : running ≠ 0 := by decide
    simp only [hrun, if_true, ne_eq, not_false_eq_true] at h ⊢
    generalize sdk.RfcGetServerConnectionMonitorData _ _ _ = got at h ⊢
    obtain ⟨rc, monitor, e⟩ := got
    simp only [] at h ⊢
    by_cases hrc : rc = RFC_OK
    · subst hrc
      simp only [not_true_eq_false, if_false] at h ⊢
      rw [afterFirst_append_of_none] at h
      · exact ih _ _ post h
      · intro x hx
        simp only [List.mem_append, List.mem_cons, List.mem_map, List.mem_singleton,
          List.not_mem_nil, or_false] at hx
        rcases hx with ((hx | rfl) | (rfl | ⟨m, _, rfl⟩)) | rfl
        · exact (RfcSleep_quiet _ x hx).1
        · rfl
        · rfl
        · simp only [monitorLine]; split_ifs <;> rfl
        · rfl
    · simp only [hrc, not_false_eq_true, if_true] at h ⊢
      rw [List.append_assoc, afterFirst_append_of_none _ _ _ (fun x hx => (RfcSleep_quiet _ x hx).1)] at h
      simp [afterFirst, Event.checkedFailure, hrc] at h
      subst h
      exact ⟨trivial, errorHandling_quiet _ _⟩

theorem loadCryptolib_checked (sdk : SDK) (pathTolib : CStr) :
    ((loadCryptolib sdk pathTolib).1 = true ∧
      ∃ post, afterFirst Event.checkedFailure (loadCryptolib sdk pathTolib).2 = some post ∧
        ∀ x ∈ post, x.isSdkCall = false) ∨
    ((loadCryptolib sdk pathTolib).1 = false ∧
      ∀ x ∈ (loadCryptolib sdk pathTolib).2, x.checkedFailure = false) := by
  simp only [loadCryptolib]
  generalize sdk.RfcLoadCryptoLibrary _ = loaded
  obtain ⟨rc, e⟩ := loaded
  by_cases hrc : rc = RFC_OK
  · subst hrc
    right
    simp [Event.checkedFailure]
  · left
    simp [hrc, afterFirst, Event.checkedFailure]
    exact errorHandling_quiet _ _

/-- The calls the server checks: when `RfcLoadCryptoLibrary`,
`RfcLaunchServer`, `RfcGetServerConnectionMonitorData` or `RfcShutdownServer`
reports a code other than `RFC_OK`, the process exits with status 1 and the
only thing after the failing call is the line of `errorHandling`. -/
theorem mainU_checked (sdk : SDK) (argv : List CStr) (polls : Nat) (post : List Event)
    (h : afterFirst Event.checkedFailure (mainU sdk argv polls).2 = some post) :
    (mainU sdk argv polls).1 = .exited 1 ∧ ∀ x ∈ post, x.isSdkCall = false := by
  simp only [mainU, installFunctionModules, List.append_nil] at h ⊢
  generalize hl : (match argv with
    | _ :: path :: _ => loadCryptolib sdk path
    | _ => ((false, []) : Bool × List Event)) = loaded at h ⊢
  have hloaded : (loaded.1 = true ∧
      ∃ post, afterFirst Event.checkedFailure loaded.2 = some post ∧
        ∀ x ∈ post, x.isSdkCall = false) ∨
      (loaded.1 = false ∧ ∀ x ∈ loaded.2, x.checkedFailure = false) := by
    subst hl
    split
    · exact loadCryptolib_checked sdk _
    · right; simp
  obtain ⟨exited, ev0⟩ := loaded
  rcases hloaded with ⟨he, post', hpost', hq⟩ | ⟨he, hq⟩
  · simp only [] at he hpost' h ⊢
    subst he
    simp only [if_true] at h ⊢
    rw [hpost'] at h
    cases h
    exact ⟨trivial, hq⟩
  · simp only [] at he hq h ⊢
    subst he
    generalize sdk.RfcCreateServer _ _ = created at h ⊢
    obtain ⟨serverHandle, e1⟩ := created
    generalize hlaunch : sdk.RfcLaunchServer _ _ = launched at h ⊢
    obtain ⟨rc, e2⟩ := launched
    have hloop := monitorLoop_checked sdk serverHandle polls 0 e2
    generalize monitorLoop sdk serverHandle polls 0 e2 = r at h hloop ⊢
    obtain ⟨outcome, ev⟩ := r
    simp only [] at h hloop ⊢
    by_cases hrc : rc = RFC_OK
    · subst hrc
      simp only [Bool.false_eq_true, if_false, ne_eq, not_true_eq_false] at h ⊢
      rw [afterFirst_append_of_none] at h
      · exact hloop post h
      · intro x hx
        simp only [List.mem_append, List.mem_cons, List.mem_singleton, List.not_mem_nil,
          or_false] at hx
        rcases hx with (hx | rfl | rfl) | rfl
        · exact hq x hx
        · rfl
        · rfl
        · rfl
    · simp only [Bool.false_eq_true, if_false, ne_eq, hrc, not_false_eq_true, if_true] at h ⊢
      rw [List.append_assoc, List.append_assoc, afterFirst_append_of_none _ _ _ hq] at h
      simp [afterFirst, Event.checkedFailure, hrc] at h
      subst h
      exact ⟨trivial, errorHandling_quiet _ _⟩

/-- C8, the failing run: the server is started without arguments and
`RfcCreateServer` fails (null handle, error code 1). `errorHandling` is not
called for it: the server prints that it starts to listen and calls
`RfcLaunchServer` on the null handle; it is the failure of that call that
ends the process. -/
theorem mainU_createServer_unchecked :
    mainU sdkCreateFails [cU "ServerMonitorSample"] 1 =
      (.exited 1,
       [.RfcCreateServer [{ name := cU "DEST", value := some (cU "SERVER_SAMPLE") }] 1 0
          { code := 1, message := cU "no gateway" },
        .printfU "Starting to listen...\n\n" [],
        .RfcLaunchServer 0 13 { code := 13, message := cU "invalid handle" },
        .printfU "%s : (%d) %s\n"
          [.str (cU "Error launching server"), .num 13, .str (cU "invalid handle")]]) ∧
    (afterFirst Event.failed (mainU sdkCreateFails [cU "ServerMonitorSample"] 1).2).map
        (fun post => post.filter Event.isSdkCall) =
      some [.RfcLaunchServer 0 13 { code := 13, message := cU "invalid handle" }] := by
  decide

end ServerMonitorSample

namespace StartRfc

/-- C1, an instance: port first, then the function, then the path. -/
theorem parseCommand_three_pairs_witness :
    (parseCommand sdkAllOk
      (cU "startrfc" ::
        [[cU "-E", cU "PORT=" ++ cU "SAPPORT"], [cU "-F", cU "EDI_STATUS_INCOMING"],
         [cU "-E", cU "PATHNAME=" ++ cU "/tmp/status.txt"]].flatten) OPTIONS.zero).1 = true ∧
    (parseCommand sdkAllOk
      (cU "startrfc" ::
        [[cU "-E", cU "PORT=" ++ cU "SAPPORT"], [cU "-F", cU "EDI_STATUS_INCOMING"],
         [cU "-E", cU "PATHNAME=" ++ cU "/tmp/status.txt"]].flatten) OPTIONS.zero).2.1.function =
      some (cU "EDI_STATUS_INCOMING") ∧
    (parseCommand sdkAllOk
      (cU "startrfc" ::
        [[cU "-E", cU "PORT=" ++ cU "SAPPORT"], [cU "-F", cU "EDI_STATUS_INCOMING"],
         [cU "-E", cU "PATHNAME=" ++ cU "/tmp/status.txt"]].flatten) OPTIONS.zero).2.1.path =
      some (cU "/tmp/status.txt") ∧
    (parseCommand sdkAllOk
      (cU "startrfc" ::
        [[cU "-E", cU "PORT=" ++ cU "SAPPORT"], [cU "-F", cU "EDI_STATUS_INCOMING"],
         [cU "-E", cU "PATHNAME=" ++ cU "/tmp/status.txt"]].flatten) OPTIONS.zero).2.1.port =
      some (cU "SAPPORT") ∧
    (checkOptions (parseCommand sdkAllOk
      (cU "startrfc" ::
        [[cU "-E", cU "PORT=" ++ cU "SAPPORT"], [cU "-F", cU "EDI_STATUS_INCOMING"],
         [cU "-E", cU "PATHNAME=" ++ cU "/tmp/status.txt"]].flatten) OPTIONS.zero).2.1).1 = true :=
  parseCommand_three_pairs sdkAllOk (cU "startrfc") (cU "EDI_STATUS_INCOMING")
    (cU "/tmp/status.txt") (cU "SAPPORT") OPTIONS.zero _ (Or.inr rfl) (by decide) (by decide)
    (show ([_] ++ [_, _]).Perm ([_, _] ++ [_]) from List.perm_append_comm)

/-- C2: `checkOptions` returns true if and only if `showSysInfo` is set, or
`function` is present and is `EDI_DATA_INCOMING` or `EDI_STATUS_INCOMING`,
`path` is present, not empty and at most 100 units long, and `port` is
present, not empty and at most 10 units long. With the other fields in
order, a path of exactly 100 units and a port of exactly 10 units are
accepted, a path of 101 units is rejected and so is a port of 11 units. -/
theorem checkOptions_accepts_iff :
    (∀ o : OPTIONS, (checkOptions o).1 = true ↔
      (o.showSysInfo = true ∨
        ((∃ f, o.function = some f ∧
            (f = cU "EDI_DATA_INCOMING" ∨ f = cU "EDI_STATUS_INCOMING")) ∧
         (∃ p, o.path = some p ∧ p ≠ [] ∧ strlenU p ≤ 100) ∧
         (∃ q, o.port = some q ∧ q ≠ [] ∧ strlenU q ≤ 10)))) ∧
    (∀ (o : OPTIONS) (p q : CStr), o.showSysInfo = false →
      (o.function = some (cU "EDI_DATA_INCOMING") ∨
        o.function = some (cU "EDI_STATUS_INCOMING")) →
      o.path = some p → o.port = some q →
      (strlenU p = 100 → strlenU q = 10 → (checkOptions o).1 = true) ∧
      (strlenU p = 101 → (checkOptions o).1 = false) ∧
      (strlenU q = 11 → (checkOptions o).1 = false)) := by
  refine ⟨checkOptions_iff, ?_⟩
  intro o p q hi hf hp hq
  refine ⟨?_, ?_, ?_⟩
  · intro h100 h10
    refine (checkOptions_iff o).2 (Or.inr ⟨?_, ⟨p, hp, ?_, by omega⟩, ⟨q, hq, ?_, by omega⟩⟩)
    · rcases hf with hf | hf
      · exact ⟨_, hf, Or.inl rfl⟩
      · exact ⟨_, hf, Or.inr rfl⟩
    · rintro rfl; simp [strlenU] at h100
    · rintro rfl; simp [strlenU] at h10
  · intro h101
    rcases hc : (checkOptions o).1 with _ | _
    · rfl
    · rcases (checkOptions_iff o).1 hc with h | ⟨_, ⟨p', hp', _, hlen⟩, _⟩
      · rw [hi] at h; cases h
      · rw [hp] at hp'; cases hp'; omega
  · intro h11
    rcases hc : (checkOptions o).1 with _ | _
    · rfl
    · rcases (checkOptions_iff o).1 hc with h | ⟨_, _, ⟨q', hq', _, hlen⟩⟩
      · rw [hi] at h; cases h
      · rw [hq] at hq'; cases hq'; omega

/-- C2, instances at the limits: 100 and 10 units are accepted, 101 units of
path are rejected. -/
theorem checkOptions_accepts_iff_witness :
    (checkOptions { OPTIONS.zero with
      function := some (cU "EDI_DATA_INCOMING")
      path := some (List.replicate 100 120)
      port := some (List.replicate 10 121) }).1 = true ∧
    (checkOptions { OPTIONS.zero with
      function := some (cU "EDI_DATA_INCOMING")
      path := some (List.replicate 101 120)
      port := some (List.replicate 10 121) }).1 = false :=
  ⟨(checkOptions_accepts_iff.2 _ (List.replicate 100 120) (List.replicate 10 121)
      rfl (Or.inl rfl) rfl rfl).1 (by simp [strlenU]) (by simp [strlenU]),
   (checkOptions_accepts_iff.2 _ (List.replicate 101 120) (List.replicate 10 121)
      rfl (Or.inl rfl) rfl rfl).2.1 (by simp [strlenU])⟩

/-- C5, two instances: `-v` as the first argument gives false and the
version; an unknown option, a `-help` further on and a `-F` without its value
give true. -/
theorem parseCommand_returns_false_iff_witness :
    ((parseCommand sdkAllOk [cU "startrfc", cU "-v", cU "-i"] OPTIONS.zero).1 = false ∧
      (parseCommand sdkAllOk [cU "startrfc", cU "-v", cU "-i"] OPTIONS.zero).2.1 =
        OPTIONS.zero ∧
      (parseCommand sdkAllOk [cU "startrfc", cU "-v", cU "-i"] OPTIONS.zero).2.2 =
        if [cU "startrfc", cU "-v", cU "-i"][1]? = some (cU "-v") then showVersion sdkAllOk
        else showHelp) ∧
    (parseCommand sdkAllOk [cU "startrfc", cU "-x", cU "-help", cU "-F"] OPTIONS.zero).1 =
      true :=
  ⟨(parseCommand_returns_false_iff sdkAllOk [cU "startrfc", cU "-v", cU "-i"]
      OPTIONS.zero).1 (by decide),
   (parseCommand_returns_false_iff sdkAllOk [cU "startrfc", cU "-x", cU "-help", cU "-F"]
      OPTIONS.zero).2 (by decide)⟩

end StartRfc
